import Mathlib

/-
Verification of the Janus per-session media engine (feixiao/janus).

The repository ships the headers (rtp.h, ice.h, plugin.h, config.h, auth.h,
transport.h); the corresponding .c implementation files are not part of the
source tree.  Where a claim is decided by a missing .c body, the definition
below is modelled from the specification (spec.md) and from the declarations,
constants and doc comments that are present in the headers; each such
definition says so in its doc comment.
-/

/-- The modulus of the 16-bit seq_number field of rtp_header (rtp.h). -/
def seqMod : Nat := 65536

/-- The modulus of the 32-bit timestamp and ssrc fields of rtp_header (rtp.h). -/
def tsMod : Nat := 4294967296

/-- Forward distance from a to b modulo 2^16 (both expected below seqMod). -/
def delta16 (a b : Nat) : Nat := (b + seqMod - a) % seqMod

/-- Forward distance from a to b modulo 2^32 (both expected below tsMod). -/
def delta32 (a b : Nat) : Nat := (b + tsMod - a) % tsMod

/-- The header fields of one RTP packet that janus_rtp_header_update reads and
rewrites: ssrc, timestamp and seq_number (rtp.h, struct rtp_header). -/
structure RtpHeaderFields where
  ssrc : Nat
  timestamp : Nat
  seq_number : Nat
deriving DecidableEq, Repr

/-- A well-formed inbound header: the fields fit their wire widths and the
SSRC is nonzero (an SSRC of 0 is what a reset janus_rtp_switching_context
stores to mean that no packet has been seen yet). -/
def RtpHeaderFields.wf (h : RtpHeaderFields) : Prop :=
  h.ssrc ≠ 0 ∧ h.ssrc < tsMod ∧ h.timestamp < tsMod ∧ h.seq_number < seqMod

instance (h : RtpHeaderFields) : Decidable h.wf :=
  inferInstanceAs (Decidable (h.ssrc ≠ 0 ∧ h.ssrc < tsMod ∧ h.timestamp < tsMod ∧
    h.seq_number < seqMod))

/-- One media lane of janus_rtp_switching_context (rtp.h line 155: the C
struct holds two independent copies of these fields, prefixed a_ and v_, for
the audio and the video lane; the claims are per lane).  seq_offset and
ts_offset are kept reduced modulo 2^16 / 2^32; the delay fields are signed;
the time fields are monotonic microseconds. -/
structure janus_rtp_switching_context where
  last_ssrc : Nat
  last_ts : Nat
  last_seq : Nat
  base_ts : Nat
  base_ts_prev : Nat
  base_seq : Nat
  base_seq_prev : Nat
  ts_offset : Nat
  seq_offset : Nat
  new_ssrc : Bool
  seq_reset : Bool
  prev_delay : Int
  active_delay : Int
  last_time : Int
  reference_time : Int
  start_time : Int
  start_ts : Nat
deriving DecidableEq, Repr

/-- janus_rtp_switching_context_reset (rtp.h line 172): set every context
field to its default value (all zero / false). -/
def janus_rtp_switching_context_reset : janus_rtp_switching_context :=
  { last_ssrc := 0, last_ts := 0, last_seq := 0, base_ts := 0, base_ts_prev := 0,
    base_seq := 0, base_seq_prev := 0, ts_offset := 0, seq_offset := 0,
    new_ssrc := false, seq_reset := false, prev_delay := 0, active_delay := 0,
    last_time := 0, reference_time := 0, start_time := 0, start_ts := 0 }

/-- Modelled from the spec: rtp.c, which implements janus_rtp_header_update
(declared at rtp.h line 179), is not in src/.  Contract of update from
spec.md section 4.2: when the incoming SSRC differs from last_ssrc, set
new_ssrc, save base_ts into base_ts_prev and base_seq into base_seq_prev,
take the incoming timestamp and seq as the new bases, and pick seq_offset
and ts_offset so that this packet leaves as seq = last_seq + 1 and
ts = last_ts + step (step taken as 1 when it is 0, i.e. unknown); otherwise
apply the existing offsets and record last_ts, last_seq and last_time.
A freshly reset context (last_ssrc = 0) adopts the first packet and lets it
pass through unchanged, as required by spec.md scenario 2.
Returns the updated context together with the rewritten header. -/
def janus_rtp_header_update (h : RtpHeaderFields) (c : janus_rtp_switching_context)
    (step : Nat) (now : Int) : janus_rtp_switching_context × RtpHeaderFields :=
  if h.ssrc = c.last_ssrc then
    let outSeq := (h.seq_number + c.seq_offset) % seqMod
    let outTs := (h.timestamp + c.ts_offset) % tsMod
    ({ c with last_seq := outSeq, last_ts := outTs, last_time := now },
     { h with seq_number := outSeq, timestamp := outTs })
  else if c.last_ssrc = 0 then
    ({ c with last_ssrc := h.ssrc, base_ts := h.timestamp, base_seq := h.seq_number,
              seq_offset := 0, ts_offset := 0,
              last_seq := h.seq_number % seqMod, last_ts := h.timestamp % tsMod,
              last_time := now },
     { h with seq_number := h.seq_number % seqMod, timestamp := h.timestamp % tsMod })
  else
    let st := if step = 0 then 1 else step
    let outSeq := (c.last_seq + 1) % seqMod
    let outTs := (c.last_ts + st) % tsMod
    ({ c with new_ssrc := true, last_ssrc := h.ssrc,
              base_ts_prev := c.base_ts, base_ts := h.timestamp,
              base_seq_prev := c.base_seq, base_seq := h.seq_number,
              seq_offset := (outSeq + seqMod - h.seq_number % seqMod) % seqMod,
              ts_offset := (outTs + tsMod - h.timestamp % tsMod) % tsMod,
              last_seq := outSeq, last_ts := outTs },
     { h with seq_number := outSeq, timestamp := outTs })

/-- Run janus_rtp_header_update over a list of inbound packets in order,
collecting the rewritten headers. -/
def janus_rtp_header_update_run (c : janus_rtp_switching_context) (step : Nat)
    (now : Int) : List RtpHeaderFields →
    janus_rtp_switching_context × List RtpHeaderFields
  | [] => (c, [])
  | h :: t =>
    let r := janus_rtp_header_update h c step now
    let rest := janus_rtp_header_update_run r.1 step now t
    (rest.1, r.2 :: rest.2)

/-- The outbound seq_number strictly increases from a to b modulo 2^16:
the forward distance is at least 1 and below 2^15. -/
def seqStrictInc (a b : RtpHeaderFields) : Prop :=
  1 ≤ delta16 a.seq_number b.seq_number ∧ delta16 a.seq_number b.seq_number < 32768

/-- The outbound timestamp does not decrease from a to b modulo 2^32:
the forward distance is below 2^31. -/
def tsNonDec (a b : RtpHeaderFields) : Prop :=
  delta32 a.timestamp b.timestamp < 2147483648

/-- The outbound monotonicity of spec.md invariant I1 between two consecutive
rewritten packets. -/
def outMono (a b : RtpHeaderFields) : Prop := seqStrictInc a b ∧ tsNonDec a b

/-- Between two consecutive inbound packets of the same SSRC, the sequence
number strictly increases mod 2^16 and the timestamp does not decrease mod
2^32; packets of different SSRCs are unconstrained. -/
def inMono (a b : RtpHeaderFields) : Prop :=
  a.ssrc = b.ssrc → (seqStrictInc a b ∧ tsNonDec a b)

instance : DecidableRel seqStrictInc := fun a b =>
  inferInstanceAs (Decidable (1 ≤ delta16 a.seq_number b.seq_number ∧
    delta16 a.seq_number b.seq_number < 32768))

instance : DecidableRel tsNonDec := fun a b =>
  inferInstanceAs (Decidable (delta32 a.timestamp b.timestamp < 2147483648))

instance : DecidableRel outMono := fun a b =>
  inferInstanceAs (Decidable (seqStrictInc a b ∧ tsNonDec a b))

instance : DecidableRel inMono := fun a b =>
  inferInstanceAs (Decidable (a.ssrc = b.ssrc → (seqStrictInc a b ∧ tsNonDec a b)))

/-- The invariant carried between packets of a rewrite run: the context
remembers the previous inbound SSRC and the previous outbound seq/ts, the
previous inbound packet was well formed, the previous outbound fields are
reduced, the offsets are reduced, and the offsets map the previous inbound
fields to the previous outbound fields. -/
def UpdateInv (c : janus_rtp_switching_context) (pIn pOut : RtpHeaderFields) : Prop :=
  c.last_ssrc = pIn.ssrc ∧ pIn.wf ∧
  c.last_seq = pOut.seq_number ∧ c.last_ts = pOut.timestamp ∧
  pOut.seq_number < seqMod ∧ pOut.timestamp < tsMod ∧
  c.seq_offset < seqMod ∧ c.ts_offset < tsMod ∧
  (pIn.seq_number + c.seq_offset) % seqMod = pOut.seq_number ∧
  (pIn.timestamp + c.ts_offset) % tsMod = pOut.timestamp

/-- janus_rtp_packet (rtp.h line 57), reduced to the parts the NACK/RTX
claims read: the 16-bit RTP sequence number it was sent with and its bytes. -/
structure JanusRtpPacket where
  seq : Nat
  payload : List Nat
deriving DecidableEq, Repr

/-- Modelled from the spec: rtcp.c (janus_rtcp_get_nacks) is not in src/.
The sequence numbers requested by one RTCP NACK (PID, BLP) pair: the PID
itself, plus PID + 1 + i for every bit i set in the 16-bit BLP. -/
def janus_nack_seqs (pid blp : Nat) : List Nat :=
  pid % seqMod :: (List.range 16).filterMap fun i =>
    if blp / 2 ^ i % 2 = 1 then some ((pid + 1 + i) % seqMod) else none

/-- An rtx retransmission packet as described by spec.md section 4.4: payload
type and SSRC of the rtx session, a fresh rtx sequence number, and the
original packet bytes with the 2-byte OSN field prepended. -/
structure RtxPacket where
  pt : Nat
  ssrc : Nat
  seq : Nat
  payload : List Nat
deriving DecidableEq, Repr

/-- Modelled from the spec: ice.c is not in src/.  Wrap one buffered packet
in an rtx packet (RFC 4588): PT = rtx payload type, SSRC = rtx SSRC, the
given rtx sequence number, and the original sequence number prepended to the
payload as a 2-byte big-endian OSN field. -/
def janus_rtp_packet_rtx_wrap (rtxPt rtxSsrc rtxSeq : Nat) (p : JanusRtpPacket) : RtxPacket :=
  { pt := rtxPt, ssrc := rtxSsrc, seq := rtxSeq % seqMod,
    payload := (p.seq / 256 % 256) :: (p.seq % 256) :: p.payload }

/-- The OSN field of an rtx packet: the first two payload bytes, big endian. -/
def rtx_osn (r : RtxPacket) : Nat :=
  r.payload.headD 0 * 256 + r.payload.tail.headD 0

/-- One emitted retransmission: either the original packet unchanged (peer
did not signal RFC 4588) or an rtx wrapping of it. -/
inductive Retransmission
  | plain (p : JanusRtpPacket)
  | rtx (r : RtxPacket)
deriving DecidableEq, Repr

/-- The retransmitted media bytes of a retransmission (for an rtx packet,
the bytes after the 2-byte OSN field). -/
def Retransmission.body : Retransmission → List Nat
  | Retransmission.plain p => p.payload
  | Retransmission.rtx r => r.payload.drop 2

/-- The original sequence number a retransmission answers for. -/
def Retransmission.orig_seq : Retransmission → Nat
  | Retransmission.plain p => p.seq
  | Retransmission.rtx r => rtx_osn r

/-- Modelled from the spec: ice.c is not in src/.  Walk the requested
sequence numbers in order; each one found in the retransmit buffer is
emitted, unchanged when RFC 4588 was not negotiated, wrapped in an rtx
packet with the next rtx_seq_number (ice.h line 481) otherwise. -/
def janus_retransmit_requested (rfc4588 : Bool) (rtxPt rtxSsrc : Nat)
    (buffer : List JanusRtpPacket) : List Nat → Nat → List Retransmission
  | [], _ => []
  | s :: rest, n =>
    match buffer.find? (fun q => q.seq == s) with
    | none => janus_retransmit_requested rfc4588 rtxPt rtxSsrc buffer rest n
    | some p =>
      if rfc4588 then
        Retransmission.rtx (janus_rtp_packet_rtx_wrap rtxPt rtxSsrc n p) ::
          janus_retransmit_requested rfc4588 rtxPt rtxSsrc buffer rest (n + 1)
      else
        Retransmission.plain p ::
          janus_retransmit_requested rfc4588 rtxPt rtxSsrc buffer rest n

/-- Modelled from the spec: ice.c is not in src/.  Handling of one inbound
RTCP NACK (PID, BLP) pair against a component retransmit buffer, starting
from rtx sequence number n. -/
def janus_ice_component_retransmit (rfc4588 : Bool) (rtxPt rtxSsrc : Nat)
    (buffer : List JanusRtpPacket) (n pid blp : Nat) : List Retransmission :=
  janus_retransmit_requested rfc4588 rtxPt rtxSsrc buffer (janus_nack_seqs pid blp) n

/-- The rtx sequence numbers of the emitted retransmissions, in order. -/
def retrans_rtx_seqs (l : List Retransmission) : List Nat :=
  l.filterMap fun r =>
    match r with
    | Retransmission.rtx x => some x.seq
    | Retransmission.plain _ => none

/-- RTP_AUDIO_SKEW_TH_MS (rtp.h line 181). -/
def RTP_AUDIO_SKEW_TH_MS : Nat := 40

/-- RTP_VIDEO_SKEW_TH_MS (rtp.h line 182). -/
def RTP_VIDEO_SKEW_TH_MS : Nat := 40

/-- SKEW_DETECTION_WAIT_TIME_SECS (rtp.h line 183). -/
def SKEW_DETECTION_WAIT_TIME_SECS : Nat := 15

/-- Modelled from the spec: rtp.c is not in src/.  The expected arrival time
of a packet with RTP timestamp ts, from the reference pair
(start_ts, reference_time) and the negotiated clock rate (spec.md 4.3):
reference_time + (ts - start_ts) / rate, in microseconds. -/
def janus_skew_expected_time (rate : Nat) (ts : Nat)
    (c : janus_rtp_switching_context) : Int :=
  c.reference_time + ((ts : Int) - (c.start_ts : Int)) * 1000000 / (rate : Int)

/-- Modelled from the spec: rtp.c is not in src/.  The exponentially smoothed
active delay after this packet (spec.md 4.3: delay = now - expected, active
delay = smoothed delay; the 7/8 smoothing weight is a modelling choice the
spec leaves open). -/
def janus_skew_active_delay (rate : Nat) (ts : Nat)
    (c : janus_rtp_switching_context) (now : Int) : Int :=
  (c.active_delay * 7 + (now - janus_skew_expected_time rate ts c)) / 8

/-- Modelled from the spec: rtp.c, which implements the skew compensators
declared at rtp.h lines 190 and 196, is not in src/.  Per spec.md 4.3: the
first packet captures the reference pair; during the 15-second warm-up
(SKEW_DETECTION_WAIT_TIME_SECS) nothing is compensated and 0 is returned;
afterwards, an active delay above +th ms bumps seq_offset by one silent
sequence number and returns +1, an active delay below -th ms asks the caller
to drop the packet and returns -1, and anything in between returns 0.  The
compensation quantum N = 1 and the post-compensation rebase of the reference
pair are modelling choices the spec leaves open. -/
def janus_rtp_skew_compensate_gen (thMs rate : Nat) (h : RtpHeaderFields)
    (c : janus_rtp_switching_context) (now : Int) :
    janus_rtp_switching_context × Int :=
  if c.start_time = 0 then
    ({ c with start_time := now, reference_time := now, start_ts := h.timestamp }, 0)
  else if now - c.start_time < (SKEW_DETECTION_WAIT_TIME_SECS : Int) * 1000000 then
    ({ c with reference_time := now, start_ts := h.timestamp }, 0)
  else
    if janus_skew_active_delay rate h.timestamp c now > (thMs : Int) * 1000 then
      ({ c with prev_delay := c.active_delay, active_delay := 0,
                reference_time := now, start_ts := h.timestamp,
                seq_offset := (c.seq_offset + 1) % seqMod }, 1)
    else if janus_skew_active_delay rate h.timestamp c now < -((thMs : Int) * 1000) then
      ({ c with prev_delay := c.active_delay, active_delay := 0,
                reference_time := now, start_ts := h.timestamp }, -1)
    else
      ({ c with prev_delay := c.active_delay,
                active_delay := janus_skew_active_delay rate h.timestamp c now }, 0)

/-- janus_rtp_skew_compensate_audio (rtp.h line 190), at the 48 kHz audio
clock rate spec.md 4.3 assumes. -/
def janus_rtp_skew_compensate_audio (h : RtpHeaderFields)
    (c : janus_rtp_switching_context) (now : Int) :
    janus_rtp_switching_context × Int :=
  janus_rtp_skew_compensate_gen RTP_AUDIO_SKEW_TH_MS 48000 h c now

/-- janus_rtp_skew_compensate_video (rtp.h line 196), at the 90 kHz video
clock rate spec.md 4.3 assumes. -/
def janus_rtp_skew_compensate_video (h : RtpHeaderFields)
    (c : janus_rtp_switching_context) (now : Int) :
    janus_rtp_switching_context × Int :=
  janus_rtp_skew_compensate_gen RTP_VIDEO_SKEW_TH_MS 90000 h c now

/-- RTP_HEADER_SIZE (rtp.h line 29). -/
def RTP_HEADER_SIZE : Nat := 12

/-- The fixed RTP header fields, as laid out by struct rtp_header
(rtp.h lines 32-53). -/
structure ParsedRtpHeader where
  version : Nat
  padding : Nat
  extension : Nat
  csrccount : Nat
  markerbit : Nat
  type : Nat
  seq_number : Nat
  timestamp : Nat
  ssrc : Nat
deriving DecidableEq, Repr

/-- Modelled from the spec: rtp.c is not in src/.  Bit-exact parse of the
fixed 12-byte RTP header (struct rtp_header, rtp.h lines 32-53) from the
packet bytes: byte 0 carries version(2)/padding(1)/extension(1)/CC(4),
byte 1 marker(1)/payload type(7), then big-endian seq, timestamp and SSRC. -/
def janus_rtp_header_parse (buf : List Nat) : Option ParsedRtpHeader :=
  if buf.length < RTP_HEADER_SIZE then none
  else
    let b0 := buf.getD 0 0
    let b1 := buf.getD 1 0
    some { version := b0 / 64, padding := b0 / 32 % 2, extension := b0 / 16 % 2,
           csrccount := b0 % 16,
           markerbit := b1 / 128, type := b1 % 128,
           seq_number := buf.getD 2 0 * 256 + buf.getD 3 0,
           timestamp := (buf.getD 4 0 * 256 + buf.getD 5 0) * 65536 +
             (buf.getD 6 0 * 256 + buf.getD 7 0),
           ssrc := (buf.getD 8 0 * 256 + buf.getD 9 0) * 65536 +
             (buf.getD 10 0 * 256 + buf.getD 11 0) }

/-- The ext_length field of the RTP extension header that follows the fixed
header and the CSRC list: number of 32-bit words, big endian
(janus_rtp_header_extension, rtp.h lines 65-68). -/
def janus_rtp_ext_length (buf : List Nat) (cc : Nat) : Nat :=
  buf.getD (RTP_HEADER_SIZE + 4 * cc + 2) 0 * 256 +
    buf.getD (RTP_HEADER_SIZE + 4 * cc + 3) 0

/-- Modelled from the spec: rtp.c, which implements janus_rtp_payload
(declared at rtp.h line 90), is not in src/.  Per spec.md 4.1 the payload
starts at 12 + 4*CC + (extension ? 4 + 4*ext_length : 0); when the padding
bit is set the last byte of the packet is the pad length and is subtracted
from the payload length.  Returns (payload offset, payload length), or none
when the packet is shorter than the computed header. -/
def janus_rtp_payload (buf : List Nat) : Option (Nat × Nat) :=
  match janus_rtp_header_parse buf with
  | none => none
  | some hd =>
    let hlen := RTP_HEADER_SIZE + 4 * hd.csrccount +
      (if hd.extension = 1 then 4 + 4 * janus_rtp_ext_length buf hd.csrccount else 0)
    if buf.length < hlen then none
    else
      let pad := if hd.padding = 1 then buf.getLastD 0 else 0
      some (hlen, buf.length - hlen - pad)

/-- The default of the max NACK queue configured through
janus_set_max_nack_queue (ice.h line 141): 300 packets per handle per
direction (spec.md 3 invariant (d) and 4.4). -/
def DEFAULT_MAX_NACK_QUEUE : Nat := 300

/-- The operations that touch a component retransmit buffer: sending an RTP
packet on the lane, or receiving an RTCP NACK (which only looks packets up,
ice.h lines 476-479). -/
inductive IceComponentOp
  | send_rtp (p : JanusRtpPacket)
  | incoming_nack (pid blp : Nat)
deriving DecidableEq, Repr

/-- Modelled from the spec: ice.c is not in src/.  Storing one sent packet
in the retransmit FIFO (audio_retransmit_buffer / video_retransmit_buffer,
ice.h line 477): append it and evict from the head down to the configured
maximum. -/
def retransmit_buffer_store (maxQueue : Nat) (buf : List JanusRtpPacket)
    (p : JanusRtpPacket) : List JanusRtpPacket :=
  let b := buf ++ [p]
  b.drop (b.length - maxQueue)

/-- One retransmit-buffer step: a sent packet is stored, an inbound NACK
leaves the buffer unchanged (retransmissions are sent, not re-buffered). -/
def retransmit_buffer_apply (maxQueue : Nat) (buf : List JanusRtpPacket) :
    IceComponentOp → List JanusRtpPacket
  | IceComponentOp.send_rtp p => retransmit_buffer_store maxQueue buf p
  | IceComponentOp.incoming_nack _ _ => buf

/-- The retransmit buffer after a sequence of sends and NACKs, from empty. -/
def retransmit_buffer_run (maxQueue : Nat) (ops : List IceComponentOp) :
    List JanusRtpPacket :=
  ops.foldl (retransmit_buffer_apply maxQueue) []

/-- The slot states of the inbound NACK-generation window (ice.h lines
272-277). -/
inductive janus_seq_state
  | SEQ_MISSING
  | SEQ_NACKED
  | SEQ_GIVEUP
  | SEQ_RECVED
deriving DecidableEq, Repr

/-- One slot of the NACK-generation window (janus_seq_info, ice.h lines
264-270; the next/prev links of the C doubly-linked ring are represented by
the list order, oldest first). -/
structure JanusSeqInfo where
  ts : Int
  seq : Nat
  state : janus_seq_state
deriving DecidableEq, Repr

/-- LAST_SEQS_MAX_LEN (ice.h line 441). -/
def LAST_SEQS_MAX_LEN : Nat := 160

/-- Modelled from the spec: ice.c is not in src/.  Default time after which
a NACKED slot is given up when no retransmit arrived: 1 second
(spec.md 4.4), in microseconds. -/
def seq_nacked_giveup_us : Int := 1000000

/-- FIFO recycling of the window: drop the oldest slots (list head) down to
LAST_SEQS_MAX_LEN. -/
def seq_window_trim (w : List JanusSeqInfo) : List JanusSeqInfo :=
  w.drop (w.length - LAST_SEQS_MAX_LEN)

/-- The last (most recently seen) sequence number tracked by the window. -/
def seq_window_last_seq (w : List JanusSeqInfo) : Nat :=
  (w.getLastD { ts := 0, seq := 0, state := janus_seq_state.SEQ_RECVED }).seq

/-- The forward distance from the last-seen sequence number to an incoming
one, modulo 2^16. -/
def seq_window_gap (w : List JanusSeqInfo) (s : Nat) : Nat :=
  delta16 (seq_window_last_seq w) (s % seqMod)

/-- Modelled from the spec: ice.c is not in src/.  Insertion of a received
sequence number s at time now (spec.md 4.4): an empty window records it as
RECVED; a step forward from the last-seen L records the intermediate numbers
L+1 .. s-1 as MISSING and s as RECVED; anything else (duplicate or
retransmission of an old number) marks a matching MISSING/NACKED slot
RECVED. -/
def seq_window_insert_core (w : List JanusSeqInfo) (s : Nat) (now : Int) :
    List JanusSeqInfo :=
  if w.isEmpty then
    [{ ts := now, seq := s % seqMod, state := janus_seq_state.SEQ_RECVED }]
  else
    if 1 ≤ seq_window_gap w s ∧ seq_window_gap w s < 32768 then
      w ++ ((List.range (seq_window_gap w s - 1)).map fun i =>
          { ts := now, seq := (seq_window_last_seq w + 1 + i) % seqMod,
            state := janus_seq_state.SEQ_MISSING }) ++
        [{ ts := now, seq := s % seqMod, state := janus_seq_state.SEQ_RECVED }]
    else
      w.map fun cell =>
        if cell.seq = s % seqMod ∧ (cell.state = janus_seq_state.SEQ_MISSING ∨
            cell.state = janus_seq_state.SEQ_NACKED) then
          { cell with state := janus_seq_state.SEQ_RECVED, ts := now }
        else cell

/-- Insertion followed by FIFO recycling to the window capacity. -/
def seq_window_insert (w : List JanusSeqInfo) (s : Nat) (now : Int) :
    List JanusSeqInfo :=
  seq_window_trim (seq_window_insert_core w s now)

/-- Modelled from the spec: ice.c is not in src/.  The NACK timer pass over
the window (spec.md 4.4): a MISSING slot older than one RTT estimate becomes
NACKED (and its seq is emitted in a NACK); a NACKED slot older than the
give-up maximum becomes GIVEUP; RECVED and GIVEUP slots are left alone.
Returns the updated window and the sequence numbers NACKed by this pass. -/
def seq_window_tick (w : List JanusSeqInfo) (now rtt : Int) :
    List JanusSeqInfo × List Nat :=
  (w.map fun cell =>
      if cell.state = janus_seq_state.SEQ_MISSING ∧ now - cell.ts ≥ rtt then
        { cell with state := janus_seq_state.SEQ_NACKED, ts := now }
      else if cell.state = janus_seq_state.SEQ_NACKED ∧
          now - cell.ts ≥ seq_nacked_giveup_us then
        { cell with state := janus_seq_state.SEQ_GIVEUP }
      else cell,
   w.filterMap fun cell =>
      if cell.state = janus_seq_state.SEQ_MISSING ∧ now - cell.ts ≥ rtt then
        some cell.seq
      else none)

/-- The operations driving one NACK-generation window. -/
inductive SeqWindowOp
  | ins (s : Nat) (now : Int)
  | tick (now rtt : Int)
deriving DecidableEq, Repr

/-- One window step. -/
def seq_window_apply (w : List JanusSeqInfo) : SeqWindowOp → List JanusSeqInfo
  | SeqWindowOp.ins s now => seq_window_insert w s now
  | SeqWindowOp.tick now rtt => (seq_window_tick w now rtt).1

/-- The window after a sequence of insertions and timer passes, from empty. -/
def seq_window_run (ops : List SeqWindowOp) : List JanusSeqInfo :=
  ops.foldl seq_window_apply []

/-- The events the no-media check can produce towards the signaling layer:
a media-state notification, or a hangup. -/
inductive JanusIceEvent
  | media_notification (video : Bool) (receiving : Bool)
  | hangup_notification
deriving DecidableEq, Repr

/-- The per-handle state the no-media timer reads and writes: whether the
handle has been hung up, and whether the last-second condition was already
notified (notified_lastsec, ice.h line 229). -/
structure JanusIceMediaState where
  hungup : Bool
  notified_lastsec : Bool
deriving DecidableEq, Repr

/-- Modelled from the spec: ice.c, which consumes the no-media timer set by
janus_set_no_media_timer (ice.h line 149), is not in src/.  Per spec.md 7
and 9, expiry of the no-media timer (no media for the configured number of
seconds, timer 0 meaning disabled) produces a notification event and nothing
else: the handle is not hung up. -/
def janus_ice_no_media_check (noMediaTimer : Nat) (now lastMedia : Int)
    (st : JanusIceMediaState) (video : Bool) :
    JanusIceMediaState × List JanusIceEvent :=
  if noMediaTimer ≠ 0 ∧ st.notified_lastsec = false ∧
      now - lastMedia ≥ (noMediaTimer : Int) * 1000000 then
    ({ st with notified_lastsec := true },
     [JanusIceEvent.media_notification video false])
  else (st, [])

/-- The callback table of a plugin (struct janus_plugin, plugin.h lines
432-511): a field is some when the plugin implements the method.  The
mandatory methods are presence-only here; the four optional media callbacks
carry a function from an abstract input to the actions they emit, so that
dispatching a missing one can be compared with a no-op. -/
structure JanusPluginTable where
  init : Option Unit
  destroy : Option Unit
  get_api_compatibility : Option Unit
  get_version : Option Unit
  get_version_string : Option Unit
  get_description : Option Unit
  get_name : Option Unit
  get_author : Option Unit
  get_package : Option Unit
  create_session : Option Unit
  handle_message : Option Unit
  setup_media : Option Unit
  incoming_rtp : Option (Nat → List Nat)
  incoming_rtcp : Option (Nat → List Nat)
  incoming_data : Option (Nat → List Nat)
  slow_link : Option (Nat → List Nat)
  hangup_media : Option Unit
  destroy_session : Option Unit
  query_session : Option Unit

/-- Modelled from the spec: janus.c, which checks a loaded plugin's callback
table, is not in src/.  The check follows the authoritative doc comment in
plugin.h lines 270-281: all methods and callbacks are mandatory except
incoming_rtp, incoming_rtcp, incoming_data and slow_link (get_author is not
in that doc list and is left unconstrained).  A plugin missing a mandatory
method is rejected. -/
def janus_plugin_is_valid (p : JanusPluginTable) : Bool :=
  p.init.isSome && p.destroy.isSome && p.get_api_compatibility.isSome &&
  p.get_version.isSome && p.get_version_string.isSome &&
  p.get_description.isSome && p.get_name.isSome && p.get_package.isSome &&
  p.create_session.isSome && p.handle_message.isSome && p.setup_media.isSome &&
  p.hangup_media.isSome && p.destroy_session.isSome && p.query_session.isSome

/-- Dispatch of the optional incoming_rtp callback: a missing method is a
no-op (emits nothing). -/
def janus_plugin_dispatch_incoming_rtp (p : JanusPluginTable) (x : Nat) : List Nat :=
  match p.incoming_rtp with
  | some f => f x
  | none => []

/-- Dispatch of the optional incoming_rtcp callback: a missing method is a
no-op. -/
def janus_plugin_dispatch_incoming_rtcp (p : JanusPluginTable) (x : Nat) : List Nat :=
  match p.incoming_rtcp with
  | some f => f x
  | none => []

/-- Dispatch of the optional incoming_data callback: a missing method is a
no-op. -/
def janus_plugin_dispatch_incoming_data (p : JanusPluginTable) (x : Nat) : List Nat :=
  match p.incoming_data with
  | some f => f x
  | none => []

/-- Dispatch of the optional slow_link callback: a missing method is a
no-op. -/
def janus_plugin_dispatch_slow_link (p : JanusPluginTable) (x : Nat) : List Nat :=
  match p.slow_link with
  | some f => f x
  | none => []

/-- The mandatory-method predicate of the claim under examination for C9:
what the claim says the core requires (everything except setup_media,
incoming_rtp/rtcp/data, slow_link and hangup_media). -/
def claim_mandatory_present (p : JanusPluginTable) : Bool :=
  p.init.isSome && p.destroy.isSome && p.get_api_compatibility.isSome &&
  p.get_version.isSome && p.get_version_string.isSome &&
  p.get_description.isSome && p.get_name.isSome && p.get_package.isSome &&
  p.create_session.isSome && p.handle_message.isSome &&
  p.destroy_session.isSome && p.query_session.isSome

/-- A plugin table implementing every method the C9 claim calls mandatory,
as well as incoming_rtp/rtcp/data, slow_link and hangup_media, but omitting
setup_media, which the claim calls optional. -/
def C9_no_setup_media_plugin : JanusPluginTable :=
  { init := some (), destroy := some (), get_api_compatibility := some (),
    get_version := some (), get_version_string := some (),
    get_description := some (), get_name := some (), get_author := some (),
    get_package := some (), create_session := some (),
    handle_message := some (), setup_media := none,
    incoming_rtp := some fun _ => [], incoming_rtcp := some fun _ => [],
    incoming_data := some fun _ => [], slow_link := some fun _ => [],
    hangup_media := some (), destroy_session := some (),
    query_session := some () }

/-- janus_config_item (config.h lines 19-24). -/
structure janus_config_item where
  name : String
  value : String
deriving DecidableEq, Repr

/-- janus_config_category (config.h lines 28-33). -/
structure janus_config_category where
  name : String
  items : List janus_config_item
deriving DecidableEq, Repr

/-- janus_config (config.h lines 36-43). -/
structure janus_config where
  name : String
  items : List janus_config_item
  categories : List janus_config_category
deriving DecidableEq, Repr

/-- janus_config_get_category (config.h line 65): the category with the
given name, if any. -/
def janus_config_get_category (config : janus_config) (category : String) :
    Option janus_config_category :=
  config.categories.find? fun c => c.name == category

/-- janus_config_get_item (config.h line 76): the item with the given name
in a category, if any. -/
def janus_config_get_item (category : janus_config_category) (name : String) :
    Option janus_config_item :=
  category.items.find? fun i => i.name == name

/-- janus_config_get_item_drilldown (config.h line 84): look the category up
by name, then the item inside it. -/
def janus_config_get_item_drilldown (config : janus_config)
    (category name : String) : Option janus_config_item :=
  match janus_config_get_category config category with
  | none => none
  | some c => janus_config_get_item c name

/-- Modelled from the spec: config.c is not in src/.  janus_config_add_category
per its doc comment (config.h lines 86-91): when a category with that name
already exists it is NOT overwritten and the existing instance is returned,
so the container is unchanged; otherwise an empty category is appended. -/
def janus_config_add_category (config : janus_config) (category : String) :
    janus_config :=
  if (config.categories.find? fun c => c.name == category).isSome then config
  else { config with categories :=
    config.categories ++ [{ name := category, items := [] }] }

/-- Overwrite the value of an existing item, or append a new one. -/
def janus_config_update_items (items : List janus_config_item)
    (name value : String) : List janus_config_item :=
  if (items.find? fun i => i.name == name).isSome then
    items.map fun i => if i.name == name then { i with value := value } else i
  else items ++ [{ name := name, value := value }]

/-- Modelled from the spec: config.c is not in src/.  janus_config_add_item
per its doc comment (config.h lines 100-107): create the category when it
does not exist; when an item with that name already exists in the category
its value is overwritten, otherwise the item is appended. -/
def janus_config_add_item (config : janus_config) (category name value : String) :
    janus_config :=
  let config1 := janus_config_add_category config category
  { config1 with categories := config1.categories.map fun c =>
      if c.name == category then
        { c with items := janus_config_update_items c.items name value }
      else c }

/-- A switching context that has already seen SSRC 0xAAA (2730), with last
outbound seq 100 and ts 1000: the state right after the first packet of
spec.md scenario 2. -/
def C2_live_ctx : janus_rtp_switching_context :=
  { janus_rtp_switching_context_reset with
    last_ssrc := 2730
    last_ts := 1000
    last_seq := 100 }

/-- A switching context whose skew warm-up started at monotonic time 1 with
reference pair (start_ts = 0, reference_time = 1) and no accumulated delay
(for concrete instantiations of the skew compensator). -/
def C4_after_ctx : janus_rtp_switching_context :=
  { janus_rtp_switching_context_reset with
    start_time := 1
    reference_time := 1 }

/-- A plugin table implementing every mandatory method while omitting all
four optional media callbacks (incoming_rtp/rtcp/data and slow_link). -/
def C9_optional_omitted_plugin : JanusPluginTable :=
  { init := some (), destroy := some (), get_api_compatibility := some (),
    get_version := some (), get_version_string := some (),
    get_description := some (), get_name := some (), get_author := some (),
    get_package := some (), create_session := some (),
    handle_message := some (), setup_media := some (),
    incoming_rtp := none, incoming_rtcp := none,
    incoming_data := none, slow_link := none,
    hangup_media := some (), destroy_session := some (),
    query_session := some () }

/-- A concrete configuration item debug=4 (for concrete instantiations). -/
def C10_debug_item : janus_config_item := { name := "debug", value := "4" }

/-- A concrete category holding the debug item. -/
def C10_general_cat : janus_config_category :=
  { name := "general", items := [C10_debug_item] }

/-- A concrete configuration container holding the general category. -/
def C10_cfg : janus_config :=
  { name := "janus", items := [], categories := [C10_general_cat] }

/-- Adding a common offset and reducing preserves the forward seq distance. -/
theorem delta16_shift (a b o : Nat) (ha : a < seqMod) (hb : b < seqMod) :
    delta16 ((a + o) % seqMod) ((b + o) % seqMod) = delta16 a b := by
  simp only [delta16, seqMod] at ha hb ⊢
  omega

/-- The forward seq distance to the successor is 1. -/
theorem delta16_succ (a : Nat) (ha : a < seqMod) :
    delta16 a ((a + 1) % seqMod) = 1 := by
  simp only [delta16, seqMod] at ha ⊢
  omega

/-- Adding a common offset and reducing preserves the forward ts distance. -/
theorem delta32_shift (a b o : Nat) (ha : a < tsMod) (hb : b < tsMod) :
    delta32 ((a + o) % tsMod) ((b + o) % tsMod) = delta32 a b := by
  simp only [delta32, tsMod] at ha hb ⊢
  omega

/-- The forward ts distance across a jump of s is s. -/
theorem delta32_add (a s : Nat) (ha : a < tsMod) (hs : s < tsMod) :
    delta32 a ((a + s) % tsMod) = s := by
  simp only [delta32, tsMod] at ha hs ⊢
  omega

/-- The seq offset chosen at an SSRC change maps the incoming seq to the
chosen outgoing seq. -/
theorem seq_offset_maps (s out : Nat) (hs : s < seqMod) (hout : out < seqMod) :
    (s + (out + seqMod - s % seqMod) % seqMod) % seqMod = out := by
  simp only [seqMod] at hs hout ⊢
  omega

/-- The ts offset chosen at an SSRC change maps the incoming ts to the
chosen outgoing ts. -/
theorem ts_offset_maps (s out : Nat) (hs : s < tsMod) (hout : out < tsMod) :
    (s + (out + tsMod - s % tsMod) % tsMod) % tsMod = out := by
  simp only [tsMod] at hs hout ⊢
  omega

/-- One rewrite step started in a consistent context emits a packet that
strictly advances the outbound seq and does not rewind the outbound ts, and
re-establishes the context invariant. -/
theorem janus_rtp_header_update_step (step : Nat) (now : Int)
    (hstep : step < 2147483648)
    (c : janus_rtp_switching_context) (pIn pOut q : RtpHeaderFields)
    (hinv : UpdateInv c pIn pOut) (hq : q.wf) (hm : inMono pIn q) :
    outMono pOut (janus_rtp_header_update q c step now).2 ∧
    UpdateInv (janus_rtp_header_update q c step now).1 q
      (janus_rtp_header_update q c step now).2 := by
  obtain ⟨hssrc, hpwf, hlseq, hlts, hos, hot, hoseq, hots, hmapS, hmapT⟩ := hinv
  obtain ⟨hq0, hqss, hqt, hqn⟩ := hq
  obtain ⟨hp0, hpss, hpt, hpn⟩ := hpwf
  have hm16 : (0:Nat) < seqMod := by norm_num [seqMod]
  have hm32 : (0:Nat) < tsMod := by norm_num [tsMod]
  by_cases hsame : q.ssrc = c.last_ssrc
  · have hpq : pIn.ssrc = q.ssrc := by rw [hsame, hssrc]
    obtain ⟨hseqm, htsm⟩ := hm hpq
    unfold janus_rtp_header_update
    rw [if_pos hsame]
    refine ⟨⟨?_, ?_⟩, ?_⟩
    · show seqStrictInc pOut _
      unfold seqStrictInc at hseqm ⊢
      rw [← hmapS, delta16_shift pIn.seq_number q.seq_number c.seq_offset hpn hqn]
      exact hseqm
    · show tsNonDec pOut _
      unfold tsNonDec at htsm ⊢
      rw [← hmapT, delta32_shift pIn.timestamp q.timestamp c.ts_offset hpt hqt]
      exact htsm
    · exact ⟨hsame.symm, ⟨hq0, hqss, hqt, hqn⟩, rfl, rfl,
        Nat.mod_lt _ hm16, Nat.mod_lt _ hm32, hoseq, hots, rfl, rfl⟩
  · have hnz : ¬ c.last_ssrc = 0 := by rw [hssrc]; exact hp0
    have hstlt : (if step = 0 then 1 else step) < tsMod := by
      unfold tsMod
      split
      · norm_num
      · omega
    unfold janus_rtp_header_update
    rw [if_neg hsame, if_neg hnz]
    refine ⟨⟨?_, ?_⟩, ?_⟩
    · show seqStrictInc pOut _
      unfold seqStrictInc
      simp only [hlseq]
      rw [delta16_succ pOut.seq_number hos]
      norm_num
    · show tsNonDec pOut _
      unfold tsNonDec
      simp only [hlts]
      rw [delta32_add pOut.timestamp (if step = 0 then 1 else step) hot hstlt]
      split
      · norm_num
      · exact hstep
    · exact ⟨rfl, ⟨hq0, hqss, hqt, hqn⟩, rfl, rfl,
        Nat.mod_lt _ hm16, Nat.mod_lt _ hm32,
        Nat.mod_lt _ hm16, Nat.mod_lt _ hm32,
        seq_offset_maps q.seq_number _ hqn (Nat.mod_lt _ hm16),
        ts_offset_maps q.timestamp _ hqt (Nat.mod_lt _ hm32)⟩

/-- The first well-formed packet seen by a reset context establishes the
run invariant. -/
theorem janus_rtp_header_update_fresh (step : Nat) (now : Int)
    (q : RtpHeaderFields) (hq : q.wf) :
    UpdateInv (janus_rtp_header_update q janus_rtp_switching_context_reset step now).1 q
      (janus_rtp_header_update q janus_rtp_switching_context_reset step now).2 := by
  obtain ⟨hq0, hqss, hqt, hqn⟩ := hq
  have hm16 : (0:Nat) < seqMod := by norm_num [seqMod]
  have hm32 : (0:Nat) < tsMod := by norm_num [tsMod]
  have hne : ¬ q.ssrc = janus_rtp_switching_context_reset.last_ssrc := by
    simp [janus_rtp_switching_context_reset]
    exact hq0
  have h0 : janus_rtp_switching_context_reset.last_ssrc = 0 := rfl
  unfold janus_rtp_header_update
  rw [if_neg hne, if_pos h0]
  exact ⟨rfl, ⟨hq0, hqss, hqt, hqn⟩, rfl, rfl,
    Nat.mod_lt _ hm16, Nat.mod_lt _ hm32, hm16, hm32,
    by simp [Nat.mod_eq_of_lt hqn], by simp [Nat.mod_eq_of_lt hqt]⟩

/-- A rewrite run started in a consistent context keeps the outbound packets
monotone all along. -/
theorem janus_rtp_header_update_run_chain (step : Nat) (now : Int)
    (hstep : step < 2147483648) (l : List RtpHeaderFields) :
    ∀ (c : janus_rtp_switching_context) (pIn pOut : RtpHeaderFields),
      UpdateInv c pIn pOut → (∀ p ∈ l, p.wf) →
      List.Chain' inMono (pIn :: l) →
      List.Chain' outMono (pOut :: (janus_rtp_header_update_run c step now l).2) := by
  induction l with
  | nil =>
    intro c pIn pOut hinv hwf hchain
    simp [janus_rtp_header_update_run]
  | cons q t ih =>
    intro c pIn pOut hinv hwf hchain
    rw [List.chain'_cons] at hchain
    obtain ⟨hpq, hqt⟩ := hchain
    obtain ⟨hout, hinv'⟩ := janus_rtp_header_update_step step now hstep c pIn pOut q
      hinv (hwf q (by simp)) hpq
    have hrest := ih (janus_rtp_header_update q c step now).1 q
      (janus_rtp_header_update q c step now).2 hinv'
      (fun p hp => hwf p (by simp [hp])) hqt
    simp only [janus_rtp_header_update_run]
    rw [List.chain'_cons]
    exact ⟨hout, hrest⟩

/-- C1 (amended): for every inbound packet run in which the packets are
well-formed RTP headers and, between consecutive packets of the same SSRC,
the sequence number strictly increases mod 2^16 and the timestamp does not
decrease mod 2^32, applying janus_rtp_header_update to each packet in order
(from a reset context, with any timestamp step below 2^31, crossing any
number of SSRC changes) makes the outbound sequence numbers strictly
monotonically increasing modulo 2^16 and the outbound timestamps
non-decreasing modulo 2^32 along the whole outbound lane.  The inbound
per-SSRC monotonicity hypothesis is forced: the rewrite applies one affine
offset per SSRC run, so a duplicated inbound packet leaves as a duplicate
(see the counterexample). -/
theorem C1_rewrite_monotone_amended (step : Nat) (now : Int)
    (l : List RtpHeaderFields) (hstep : step < 2147483648)
    (hwf : ∀ p ∈ l, p.wf) (hmono : List.Chain' inMono l) :
    List.Chain' outMono
      (janus_rtp_header_update_run janus_rtp_switching_context_reset step now l).2 := by
  cases l with
  | nil => simp [janus_rtp_header_update_run]
  | cons q t =>
    have hinv := janus_rtp_header_update_fresh step now q (hwf q (by simp))
    have := janus_rtp_header_update_run_chain step now hstep t _ q _ hinv
      (fun p hp => hwf p (by simp [hp])) hmono
    simp only [janus_rtp_header_update_run]
    rw [List.chain'_cons'] at this ⊢
    exact ⟨fun y hy => (this.1 y hy : outMono _ y), this.2⟩

/-- C1 counterexample: the claim as stated quantifies over every inbound
packet sequence, but a duplicated inbound packet (same SSRC, K = 0 SSRC
changes) leaves the rewrite with the same outbound seq_number twice, so the
outbound sequence numbers are not strictly monotonically increasing
modulo 2^16. -/
theorem C1_claim_counterexample :
    ¬ List.Chain' outMono
      (janus_rtp_header_update_run janus_rtp_switching_context_reset 1 0
        [{ ssrc := 1, timestamp := 10, seq_number := 5 },
         { ssrc := 1, timestamp := 10, seq_number := 5 }]).2 := by
  intro hch
  have h2 : (janus_rtp_header_update_run janus_rtp_switching_context_reset 1 0
      [{ ssrc := 1, timestamp := 10, seq_number := 5 },
       { ssrc := 1, timestamp := 10, seq_number := 5 }]).2 =
      [{ ssrc := 1, timestamp := 10, seq_number := 5 },
       { ssrc := 1, timestamp := 10, seq_number := 5 }] := rfl
  rw [h2, List.chain'_cons] at hch
  exact absurd hch.1 (by decide)

/-- C1 witness: the amended theorem applied to a concrete three-packet lane
crossing one SSRC change (0xAAA then 0xBBB). -/
theorem C1_rewrite_monotone_witness :
    ((960:Nat) < 2147483648 ∧
      (∀ p ∈ [({ ssrc := 2730, timestamp := 1000, seq_number := 100 } : RtpHeaderFields),
              { ssrc := 3003, timestamp := 99000, seq_number := 5 },
              { ssrc := 3003, timestamp := 99960, seq_number := 6 }], p.wf) ∧
      List.Chain' inMono
        [({ ssrc := 2730, timestamp := 1000, seq_number := 100 } : RtpHeaderFields),
         { ssrc := 3003, timestamp := 99000, seq_number := 5 },
         { ssrc := 3003, timestamp := 99960, seq_number := 6 }]) ∧
    List.Chain' outMono
      (janus_rtp_header_update_run janus_rtp_switching_context_reset 960 0
        [{ ssrc := 2730, timestamp := 1000, seq_number := 100 },
         { ssrc := 3003, timestamp := 99000, seq_number := 5 },
         { ssrc := 3003, timestamp := 99960, seq_number := 6 }]).2 :=
  ⟨⟨by norm_num, by decide, by
      rw [List.chain'_cons, List.chain'_cons]
      exact ⟨by decide, by decide, List.chain'_singleton _⟩⟩,
    C1_rewrite_monotone_amended 960 0 _ (by norm_num) (by decide) (by
      rw [List.chain'_cons, List.chain'_cons]
      exact ⟨by decide, by decide, List.chain'_singleton _⟩)⟩

/-- C2: when janus_rtp_header_update sees a packet whose SSRC differs from
the stored last_ssrc (on a context that has already seen traffic), it sets
new_ssrc, saves base_ts into base_ts_prev and base_seq into base_seq_prev,
takes the incoming ts and seq as the new bases, and the packet leaves with
seq = last_seq + 1 and ts = last_ts + step (step = 1 when the clock rate is
unknown, i.e. step = 0); a packet with unchanged SSRC has the existing
offsets applied and last_ts, last_seq, last_time recorded; and the concrete
two-packet lane 0xAAA/0xBBB, timestamps 1000 then 99000, seqs 100 then 5,
leaves as (100, 1000) then (101, 1000 + step). -/
theorem C2_ssrc_change_update :
    (∀ (c : janus_rtp_switching_context) (h : RtpHeaderFields) (step : Nat) (now : Int),
      h.ssrc ≠ c.last_ssrc → c.last_ssrc ≠ 0 →
      (janus_rtp_header_update h c step now).1.new_ssrc = true ∧
      (janus_rtp_header_update h c step now).1.base_ts_prev = c.base_ts ∧
      (janus_rtp_header_update h c step now).1.base_ts = h.timestamp ∧
      (janus_rtp_header_update h c step now).1.base_seq_prev = c.base_seq ∧
      (janus_rtp_header_update h c step now).1.base_seq = h.seq_number ∧
      (janus_rtp_header_update h c step now).2.seq_number = (c.last_seq + 1) % seqMod ∧
      (janus_rtp_header_update h c step now).2.timestamp =
        (c.last_ts + (if step = 0 then 1 else step)) % tsMod) ∧
    (∀ (c : janus_rtp_switching_context) (h : RtpHeaderFields) (step : Nat) (now : Int),
      h.ssrc = c.last_ssrc →
      (janus_rtp_header_update h c step now).2.seq_number =
        (h.seq_number + c.seq_offset) % seqMod ∧
      (janus_rtp_header_update h c step now).2.timestamp =
        (h.timestamp + c.ts_offset) % tsMod ∧
      (janus_rtp_header_update h c step now).1.last_seq =
        (janus_rtp_header_update h c step now).2.seq_number ∧
      (janus_rtp_header_update h c step now).1.last_ts =
        (janus_rtp_header_update h c step now).2.timestamp ∧
      (janus_rtp_header_update h c step now).1.last_time = now) ∧
    (∀ (step : Nat) (now : Int), 0 < step → step < 2147483648 →
      ((janus_rtp_header_update_run janus_rtp_switching_context_reset step now
          [{ ssrc := 2730, timestamp := 1000, seq_number := 100 },
           { ssrc := 3003, timestamp := 99000, seq_number := 5 }]).2.map
        fun p => (p.seq_number, p.timestamp)) =
        [(100, 1000), (101, 1000 + step)]) := by
  refine ⟨?_, ?_, ?_⟩
  · intro c h step now hdiff h0
    unfold janus_rtp_header_update
    rw [if_neg hdiff, if_neg h0]
    exact ⟨rfl, rfl, rfl, rfl, rfl, rfl, rfl⟩
  · intro c h step now hsame
    unfold janus_rtp_header_update
    rw [if_pos hsame]
    exact ⟨rfl, rfl, rfl, rfl, rfl⟩
  · intro step now hpos hlt
    have hne : step ≠ 0 := Nat.pos_iff_ne_zero.mp hpos
    have hmod : (1000 + step) % tsMod = 1000 + step :=
      Nat.mod_eq_of_lt (by simp only [tsMod]; omega)
    simp [janus_rtp_header_update_run, janus_rtp_header_update,
      janus_rtp_switching_context_reset, hne, seqMod, tsMod] at hmod ⊢
    omega

/-- C2 witness: the three parts of the theorem applied at concrete inputs:
an SSRC change on a live context, an unchanged-SSRC packet, and the concrete
0xAAA/0xBBB lane with step 960. -/
theorem C2_ssrc_change_update_witness :
    ((3003:Nat) ≠ C2_live_ctx.last_ssrc ∧ C2_live_ctx.last_ssrc ≠ 0 ∧
      (0:Nat) < 960 ∧ (960:Nat) < 2147483648) ∧
    ((janus_rtp_header_update { ssrc := 3003, timestamp := 99000, seq_number := 5 }
        C2_live_ctx 960 7).1.new_ssrc = true ∧
     (janus_rtp_header_update { ssrc := 3003, timestamp := 99000, seq_number := 5 }
        C2_live_ctx 960 7).2.seq_number = (100 + 1) % seqMod) ∧
    (janus_rtp_header_update { ssrc := 2730, timestamp := 2000, seq_number := 101 }
        C2_live_ctx 960 7).1.last_time = 7 ∧
    ((janus_rtp_header_update_run janus_rtp_switching_context_reset 960 7
        [{ ssrc := 2730, timestamp := 1000, seq_number := 100 },
         { ssrc := 3003, timestamp := 99000, seq_number := 5 }]).2.map
      fun p => (p.seq_number, p.timestamp)) = [(100, 1000), (101, 1000 + 960)] := by
  refine ⟨by decide, ⟨?_, ?_⟩, ?_, ?_⟩
  · exact (C2_ssrc_change_update.1 C2_live_ctx
      { ssrc := 3003, timestamp := 99000, seq_number := 5 } 960 7
      (by decide) (by decide)).1
  · exact (C2_ssrc_change_update.1 C2_live_ctx
      { ssrc := 3003, timestamp := 99000, seq_number := 5 } 960 7
      (by decide) (by decide)).2.2.2.2.2.1
  · exact (C2_ssrc_change_update.2.1 C2_live_ctx
      { ssrc := 2730, timestamp := 2000, seq_number := 101 } 960 7
      (by decide)).2.2.2.2
  · exact C2_ssrc_change_update.2.2 960 7 (by norm_num) (by norm_num)

/-- Every requested sequence number found in the retransmit buffer yields an
emitted retransmission carrying the original bytes (and, under RFC 4588, an
rtx wrapping with the rtx PT/SSRC and OSN = the original seq). -/
theorem janus_retransmit_requested_hit (rfc4588 : Bool) (rtxPt rtxSsrc : Nat)
    (buffer : List JanusRtpPacket) (hbuf : ∀ q ∈ buffer, q.seq < seqMod) :
    ∀ (l : List Nat) (n s : Nat) (p : JanusRtpPacket),
      s ∈ l → buffer.find? (fun q => q.seq == s) = some p →
      ∃ r ∈ janus_retransmit_requested rfc4588 rtxPt rtxSsrc buffer l n,
        r.body = p.payload ∧ r.orig_seq = p.seq ∧
        (rfc4588 = true → ∃ x, r = Retransmission.rtx x ∧ x.pt = rtxPt ∧
          x.ssrc = rtxSsrc ∧ rtx_osn x = p.seq) := by
  intro l
  induction l with
  | nil =>
    intro n s p hs hfind
    exact absurd hs (List.not_mem_nil s)
  | cons a rest ih =>
    intro n s p hs hfind
    rcases List.mem_cons.mp hs with hsa | hsrest
    · subst hsa
      have hple : p.seq < seqMod := hbuf p (List.mem_of_find?_eq_some hfind)
      have hosn : p.seq / 256 % 256 * 256 + p.seq % 256 = p.seq := by
        simp only [seqMod] at hple
        omega
      cases hrf : rfc4588 with
      | false =>
        refine ⟨Retransmission.plain p, ?_, rfl, rfl, by simp⟩
        simp [janus_retransmit_requested, hfind]
      | true =>
        refine ⟨Retransmission.rtx (janus_rtp_packet_rtx_wrap rtxPt rtxSsrc n p),
          ?_, ?_, ?_, ?_⟩
        · simp [janus_retransmit_requested, hfind]
        · simp [Retransmission.body, janus_rtp_packet_rtx_wrap]
        · show rtx_osn _ = p.seq
          simp [rtx_osn, janus_rtp_packet_rtx_wrap]
          exact hosn
        · intro _
          refine ⟨_, rfl, rfl, rfl, ?_⟩
          simp [rtx_osn, janus_rtp_packet_rtx_wrap]
          exact hosn
    · cases hfind' : buffer.find? (fun q => q.seq == a) with
      | none =>
        obtain ⟨r, hr, hprops⟩ := ih n s p hsrest hfind
        refine ⟨r, ?_, hprops⟩
        simp only [janus_retransmit_requested, hfind']
        exact hr
      | some pa =>
        rcases Bool.eq_false_or_eq_true rfc4588 with hrf | hrf
        · subst hrf
          obtain ⟨r, hr, hprops⟩ := ih (n + 1) s p hsrest hfind
          refine ⟨r, ?_, hprops⟩
          simp only [janus_retransmit_requested, hfind']
          rw [if_pos (by simp)]
          exact List.mem_cons_of_mem _ hr
        · subst hrf
          obtain ⟨r, hr, hprops⟩ := ih n s p hsrest hfind
          refine ⟨r, ?_, hprops⟩
          simp only [janus_retransmit_requested, hfind']
          rw [if_neg (by simp)]
          exact List.mem_cons_of_mem _ hr

/-- Under RFC 4588, the rtx sequence numbers given to the emitted
retransmissions count up one by one from the starting rtx_seq_number. -/
theorem janus_retransmit_requested_rtx_seqs (rtxPt rtxSsrc : Nat)
    (buffer : List JanusRtpPacket) :
    ∀ (l : List Nat) (n : Nat),
      retrans_rtx_seqs (janus_retransmit_requested true rtxPt rtxSsrc buffer l n) =
        (List.range (janus_retransmit_requested true rtxPt rtxSsrc buffer l n).length).map
          (fun i => (n + i) % seqMod) := by
  intro l
  induction l with
  | nil =>
    intro n
    simp [janus_retransmit_requested, retrans_rtx_seqs]
  | cons a rest ih =>
    intro n
    cases hfind : buffer.find? (fun q => q.seq == a) with
    | none =>
      simp only [janus_retransmit_requested, hfind]
      exact ih n
    | some pa =>
      simp only [janus_retransmit_requested, hfind]
      rw [if_pos (by simp)]
      simp only [retrans_rtx_seqs, List.filterMap_cons, janus_rtp_packet_rtx_wrap,
        List.length_cons]
      rw [List.range_succ_eq_map, List.map_cons, List.map_map]
      have ihh := ih (n + 1)
      simp only [retrans_rtx_seqs] at ihh
      rw [ihh]
      refine congrArg₂ _ (by simp) ?_
      refine List.map_congr_left fun i _ => ?_
      simp only [Function.comp_apply, seqMod]
      omega

/-- C3 (amended): for every inbound RTCP NACK (PID, BLP) pair, each requested
sequence number found in the retransmit buffer is retransmitted with the
media bytes identical to the original packet; under RFC 4588 the
retransmission is an rtx packet with PT = rtx payload type, SSRC = rtx SSRC,
rtx sequence numbers counting up one by one from the current rtx_seq_number,
and the original sequence number S prepended as a 2-byte OSN field (OSN = S).
For PID=42, BLP=0x0005 the requested numbers are 42, 43 and 45, so with seqs
42, 44 and 47 buffered only 42 is retransmitted (43 and 45 are requested but
absent; 44 and 47 are buffered but not requested) — the claim's expectation
that 44 is also retransmitted is refuted by the counterexample. -/
theorem C3_nack_retransmit_amended :
    (∀ (rfc4588 : Bool) (rtxPt rtxSsrc : Nat) (buffer : List JanusRtpPacket)
       (n pid blp s : Nat) (p : JanusRtpPacket),
      (∀ q ∈ buffer, q.seq < seqMod) →
      s ∈ janus_nack_seqs pid blp →
      buffer.find? (fun q => q.seq == s) = some p →
      ∃ r ∈ janus_ice_component_retransmit rfc4588 rtxPt rtxSsrc buffer n pid blp,
        r.body = p.payload ∧ r.orig_seq = p.seq ∧
        (rfc4588 = true → ∃ x, r = Retransmission.rtx x ∧ x.pt = rtxPt ∧
          x.ssrc = rtxSsrc ∧ rtx_osn x = p.seq)) ∧
    (∀ (rtxPt rtxSsrc : Nat) (buffer : List JanusRtpPacket) (n pid blp : Nat),
      retrans_rtx_seqs
          (janus_ice_component_retransmit true rtxPt rtxSsrc buffer n pid blp) =
        (List.range
          (janus_ice_component_retransmit true rtxPt rtxSsrc buffer n pid blp).length).map
          fun i => (n + i) % seqMod) := by
  constructor
  · intro rfc4588 rtxPt rtxSsrc buffer n pid blp s p hbuf hs hfind
    exact janus_retransmit_requested_hit rfc4588 rtxPt rtxSsrc buffer hbuf _ n s p hs hfind
  · intro rtxPt rtxSsrc buffer n pid blp
    exact janus_retransmit_requested_rtx_seqs rtxPt rtxSsrc buffer _ n

/-- C3 counterexample: a NACK for PID=42, BLP=0x0005 requests 42, 43 and 45;
with seqs 42, 44 and 47 buffered the emitted retransmissions answer for 42
only, and in particular 44 is not retransmitted, contrary to the claim's
"retransmits 42 and 44". -/
theorem C3_claim_counterexample :
    (janus_ice_component_retransmit false 97 1234
        [{ seq := 42, payload := [1] }, { seq := 44, payload := [2] },
         { seq := 47, payload := [3] }] 0 42 5).map Retransmission.orig_seq = [42] ∧
    ¬ (44 ∈ (janus_ice_component_retransmit false 97 1234
        [{ seq := 42, payload := [1] }, { seq := 44, payload := [2] },
         { seq := 47, payload := [3] }] 0 42 5).map Retransmission.orig_seq) := by
  decide

/-- C3 witness: the amended theorem applied to the concrete scenario buffer
under RFC 4588, requesting seq 42. -/
theorem C3_nack_retransmit_witness :
    ((∀ q ∈ [({ seq := 42, payload := [9, 8] } : JanusRtpPacket),
        { seq := 44, payload := [2] }, { seq := 47, payload := [3] }], q.seq < seqMod) ∧
      42 ∈ janus_nack_seqs 42 5 ∧
      [({ seq := 42, payload := [9, 8] } : JanusRtpPacket), { seq := 44, payload := [2] },
        { seq := 47, payload := [3] }].find? (fun q => q.seq == 42) =
        some { seq := 42, payload := [9, 8] }) ∧
    (∃ r ∈ janus_ice_component_retransmit true 97 1234
        [{ seq := 42, payload := [9, 8] }, { seq := 44, payload := [2] },
         { seq := 47, payload := [3] }] 7 42 5,
      r.body = ({ seq := 42, payload := [9, 8] } : JanusRtpPacket).payload ∧
      r.orig_seq = ({ seq := 42, payload := [9, 8] } : JanusRtpPacket).seq ∧
      (true = true → ∃ x, r = Retransmission.rtx x ∧ x.pt = 97 ∧
        x.ssrc = 1234 ∧ rtx_osn x = ({ seq := 42, payload := [9, 8] } : JanusRtpPacket).seq)) :=
  ⟨⟨by decide, by decide, by decide⟩,
    C3_nack_retransmit_amended.1 true 97 1234
      [{ seq := 42, payload := [9, 8] }, { seq := 44, payload := [2] },
       { seq := 47, payload := [3] }] 7 42 5 42 { seq := 42, payload := [9, 8] }
      (by decide) (by decide) (by decide)⟩

/-- The generic skew compensator returns 0 on every packet while the warm-up
has not elapsed (or has not even started). -/
theorem janus_rtp_skew_compensate_gen_warmup (thMs rate : Nat)
    (h : RtpHeaderFields) (c : janus_rtp_switching_context) (now : Int)
    (hw : c.start_time = 0 ∨
      now - c.start_time < (SKEW_DETECTION_WAIT_TIME_SECS : Int) * 1000000) :
    (janus_rtp_skew_compensate_gen thMs rate h c now).2 = 0 := by
  unfold janus_rtp_skew_compensate_gen
  by_cases h0 : c.start_time = 0
  · rw [if_pos h0]
  · rw [if_neg h0, if_pos (hw.resolve_left h0)]

/-- After the warm-up, the generic skew compensator follows the active-delay
trichotomy: above +th ms it inserts one silent sequence number and returns
+1, below -th ms it asks for a drop and returns -1, in between it returns 0. -/
theorem janus_rtp_skew_compensate_gen_after (thMs rate : Nat)
    (h : RtpHeaderFields) (c : janus_rtp_switching_context) (now : Int)
    (h0 : c.start_time ≠ 0)
    (helapsed : (SKEW_DETECTION_WAIT_TIME_SECS : Int) * 1000000 ≤ now - c.start_time) :
    (janus_skew_active_delay rate h.timestamp c now > (thMs : Int) * 1000 →
      (janus_rtp_skew_compensate_gen thMs rate h c now).2 = 1 ∧
      (janus_rtp_skew_compensate_gen thMs rate h c now).1.seq_offset =
        (c.seq_offset + 1) % seqMod) ∧
    (janus_skew_active_delay rate h.timestamp c now < -((thMs : Int) * 1000) →
      (janus_rtp_skew_compensate_gen thMs rate h c now).2 = -1) ∧
    (-((thMs : Int) * 1000) ≤ janus_skew_active_delay rate h.timestamp c now →
      janus_skew_active_delay rate h.timestamp c now ≤ (thMs : Int) * 1000 →
      (janus_rtp_skew_compensate_gen thMs rate h c now).2 = 0) := by
  have hnw : ¬ now - c.start_time < (SKEW_DETECTION_WAIT_TIME_SECS : Int) * 1000000 :=
    not_lt.mpr helapsed
  unfold janus_rtp_skew_compensate_gen
  rw [if_neg h0, if_neg hnw]
  refine ⟨?_, ?_, ?_⟩
  · intro hhi
    rw [if_pos hhi]
    exact ⟨rfl, rfl⟩
  · intro hlo
    have : ¬ janus_skew_active_delay rate h.timestamp c now > (thMs : Int) * 1000 := by
      have hth : (0:Int) ≤ (thMs : Int) * 1000 := by positivity
      omega
    rw [if_neg this, if_pos hlo]
  · intro hge hle
    rw [if_neg (not_lt.mpr hle), if_neg (not_lt.mpr hge)]

/-- C4: janus_rtp_skew_compensate_audio and janus_rtp_skew_compensate_video
return 0 for every packet during the 15-second warm-up regardless of input;
after the warm-up, when the exponentially smoothed active delay exceeds
+40 ms they bump seq_offset by one silent sequence number and return +1,
when it falls below -40 ms they ask the caller to drop the packet and return
-1, and otherwise they return 0. -/
theorem C4_skew_compensator :
    (∀ (h : RtpHeaderFields) (c : janus_rtp_switching_context) (now : Int),
      (c.start_time = 0 ∨
        now - c.start_time < (SKEW_DETECTION_WAIT_TIME_SECS : Int) * 1000000) →
      (janus_rtp_skew_compensate_audio h c now).2 = 0 ∧
      (janus_rtp_skew_compensate_video h c now).2 = 0) ∧
    (∀ (h : RtpHeaderFields) (c : janus_rtp_switching_context) (now : Int),
      c.start_time ≠ 0 →
      (SKEW_DETECTION_WAIT_TIME_SECS : Int) * 1000000 ≤ now - c.start_time →
      ((janus_skew_active_delay 48000 h.timestamp c now >
          (RTP_AUDIO_SKEW_TH_MS : Int) * 1000 →
        (janus_rtp_skew_compensate_audio h c now).2 = 1 ∧
        (janus_rtp_skew_compensate_audio h c now).1.seq_offset =
          (c.seq_offset + 1) % seqMod) ∧
       (janus_skew_active_delay 48000 h.timestamp c now <
          -((RTP_AUDIO_SKEW_TH_MS : Int) * 1000) →
        (janus_rtp_skew_compensate_audio h c now).2 = -1) ∧
       (-((RTP_AUDIO_SKEW_TH_MS : Int) * 1000) ≤
          janus_skew_active_delay 48000 h.timestamp c now →
        janus_skew_active_delay 48000 h.timestamp c now ≤
          (RTP_AUDIO_SKEW_TH_MS : Int) * 1000 →
        (janus_rtp_skew_compensate_audio h c now).2 = 0)) ∧
      ((janus_skew_active_delay 90000 h.timestamp c now >
          (RTP_VIDEO_SKEW_TH_MS : Int) * 1000 →
        (janus_rtp_skew_compensate_video h c now).2 = 1 ∧
        (janus_rtp_skew_compensate_video h c now).1.seq_offset =
          (c.seq_offset + 1) % seqMod) ∧
       (janus_skew_active_delay 90000 h.timestamp c now <
          -((RTP_VIDEO_SKEW_TH_MS : Int) * 1000) →
        (janus_rtp_skew_compensate_video h c now).2 = -1) ∧
       (-((RTP_VIDEO_SKEW_TH_MS : Int) * 1000) ≤
          janus_skew_active_delay 90000 h.timestamp c now →
        janus_skew_active_delay 90000 h.timestamp c now ≤
          (RTP_VIDEO_SKEW_TH_MS : Int) * 1000 →
        (janus_rtp_skew_compensate_video h c now).2 = 0))) := by
  constructor
  · intro h c now hw
    exact ⟨janus_rtp_skew_compensate_gen_warmup _ _ h c now hw,
      janus_rtp_skew_compensate_gen_warmup _ _ h c now hw⟩
  · intro h c now h0 helapsed
    exact ⟨janus_rtp_skew_compensate_gen_after RTP_AUDIO_SKEW_TH_MS 48000 h c now h0 helapsed,
      janus_rtp_skew_compensate_gen_after RTP_VIDEO_SKEW_TH_MS 90000 h c now h0 helapsed⟩

/-- C4 witness: the theorem applied to concrete packets: one during the
warm-up, and three after it with the smoothed active delay above +40 ms
(return +1, seq_offset bumped), below -40 ms (return -1) and in between
(return 0). -/
theorem C4_skew_compensator_witness :
    ((janus_rtp_switching_context_reset.start_time = 0 ∨
        (2 : Int) - janus_rtp_switching_context_reset.start_time <
          (SKEW_DETECTION_WAIT_TIME_SECS : Int) * 1000000) ∧
      C4_after_ctx.start_time ≠ 0 ∧
      (SKEW_DETECTION_WAIT_TIME_SECS : Int) * 1000000 ≤ (16000001 : Int) - C4_after_ctx.start_time ∧
      janus_skew_active_delay 48000 0 C4_after_ctx 16000001 >
        (RTP_AUDIO_SKEW_TH_MS : Int) * 1000 ∧
      janus_skew_active_delay 48000 48000000 C4_after_ctx 16000001 <
        -((RTP_AUDIO_SKEW_TH_MS : Int) * 1000) ∧
      (-((RTP_AUDIO_SKEW_TH_MS : Int) * 1000) ≤
        janus_skew_active_delay 48000 720000 C4_after_ctx 15000001 ∧
       janus_skew_active_delay 48000 720000 C4_after_ctx 15000001 ≤
        (RTP_AUDIO_SKEW_TH_MS : Int) * 1000 ∧
       (SKEW_DETECTION_WAIT_TIME_SECS : Int) * 1000000 ≤ (15000001 : Int) - C4_after_ctx.start_time)) ∧
    ((janus_rtp_skew_compensate_audio { ssrc := 1, timestamp := 0, seq_number := 0 }
        janus_rtp_switching_context_reset 2).2 = 0 ∧
     (janus_rtp_skew_compensate_video { ssrc := 1, timestamp := 0, seq_number := 0 }
        janus_rtp_switching_context_reset 2).2 = 0) ∧
    ((janus_rtp_skew_compensate_audio { ssrc := 1, timestamp := 0, seq_number := 0 }
        C4_after_ctx 16000001).2 = 1 ∧
     (janus_rtp_skew_compensate_audio { ssrc := 1, timestamp := 0, seq_number := 0 }
        C4_after_ctx 16000001).1.seq_offset = (C4_after_ctx.seq_offset + 1) % seqMod) ∧
    (janus_rtp_skew_compensate_audio { ssrc := 1, timestamp := 48000000, seq_number := 0 }
        C4_after_ctx 16000001).2 = -1 ∧
    (janus_rtp_skew_compensate_audio { ssrc := 1, timestamp := 720000, seq_number := 0 }
        C4_after_ctx 15000001).2 = 0 :=
  ⟨⟨by decide, by decide, by decide, by decide, by decide, by decide, by decide, by decide⟩,
    C4_skew_compensator.1 { ssrc := 1, timestamp := 0, seq_number := 0 }
      janus_rtp_switching_context_reset 2 (by decide),
    ((C4_skew_compensator.2 { ssrc := 1, timestamp := 0, seq_number := 0 }
      C4_after_ctx 16000001 (by decide) (by decide)).1.1 (by decide)),
    ((C4_skew_compensator.2 { ssrc := 1, timestamp := 48000000, seq_number := 0 }
      C4_after_ctx 16000001 (by decide) (by decide)).1.2.1 (by decide)),
    ((C4_skew_compensator.2 { ssrc := 1, timestamp := 720000, seq_number := 0 }
      C4_after_ctx 15000001 (by decide) (by decide)).1.2.2 (by decide) (by decide))⟩

/-- C5: for every packet long enough for its own header, the payload
returned by janus_rtp_payload starts at offset
12 + 4*CC + (extension ? 4 + 4*ext_length : 0) from the start of the buffer,
and when the padding bit is set the value of the last byte is subtracted
from the payload length; parsing the 12-byte header
80 60 00 01 00 00 03 E8 DE AD BE EF yields version 2, payload type 96,
seq 1, ts 1000, ssrc 0xDEADBEEF, no extension, no CSRC, and payload
offset 12. -/
theorem C5_rtp_payload :
    (∀ (buf : List Nat) (hd : ParsedRtpHeader),
      janus_rtp_header_parse buf = some hd →
      ¬ buf.length < RTP_HEADER_SIZE + 4 * hd.csrccount +
        (if hd.extension = 1 then 4 + 4 * janus_rtp_ext_length buf hd.csrccount else 0) →
      janus_rtp_payload buf = some
        (RTP_HEADER_SIZE + 4 * hd.csrccount +
          (if hd.extension = 1 then 4 + 4 * janus_rtp_ext_length buf hd.csrccount else 0),
         buf.length -
          (RTP_HEADER_SIZE + 4 * hd.csrccount +
            (if hd.extension = 1 then 4 + 4 * janus_rtp_ext_length buf hd.csrccount else 0)) -
          (if hd.padding = 1 then buf.getLastD 0 else 0))) ∧
    (janus_rtp_header_parse [128, 96, 0, 1, 0, 0, 3, 232, 222, 173, 190, 239] =
      some { version := 2, padding := 0, extension := 0, csrccount := 0,
             markerbit := 0, type := 96, seq_number := 1, timestamp := 1000,
             ssrc := 3735928559 } ∧
     janus_rtp_payload [128, 96, 0, 1, 0, 0, 3, 232, 222, 173, 190, 239] =
      some (12, 0)) := by
  constructor
  · intro buf hd hparse hlen
    unfold janus_rtp_payload
    rw [hparse]
    simp only [if_neg hlen]
  · exact ⟨by decide, by decide⟩

/-- C5 witness: the theorem applied to a 28-byte packet with one CSRC, a
one-word extension and two padding bytes: the payload sits at offset
12 + 4*1 + 4 + 4*1 = 24 and the padding shrinks the payload length to
28 - 24 - 2 = 2. -/
theorem C5_rtp_payload_witness :
    (janus_rtp_header_parse [177, 96, 0, 1, 0, 0, 3, 232, 222, 173, 190, 239,
        9, 9, 9, 9, 190, 222, 0, 1, 5, 5, 5, 5, 65, 66, 0, 2] =
      some { version := 2, padding := 1, extension := 1, csrccount := 1,
             markerbit := 0, type := 96, seq_number := 1, timestamp := 1000,
             ssrc := 3735928559 } ∧
     ¬ ([177, 96, 0, 1, 0, 0, 3, 232, 222, 173, 190, 239,
        9, 9, 9, 9, 190, 222, 0, 1, 5, 5, 5, 5, 65, 66, 0, 2] : List Nat).length <
        RTP_HEADER_SIZE + 4 * 1 + (4 + 4 * 1)) ∧
    janus_rtp_payload [177, 96, 0, 1, 0, 0, 3, 232, 222, 173, 190, 239,
        9, 9, 9, 9, 190, 222, 0, 1, 5, 5, 5, 5, 65, 66, 0, 2] = some (24, 2) :=
  ⟨⟨by decide, by decide⟩,
    C5_rtp_payload.1 [177, 96, 0, 1, 0, 0, 3, 232, 222, 173, 190, 239,
        9, 9, 9, 9, 190, 222, 0, 1, 5, 5, 5, 5, 65, 66, 0, 2]
      { version := 2, padding := 1, extension := 1, csrccount := 1,
        markerbit := 0, type := 96, seq_number := 1, timestamp := 1000,
        ssrc := 3735928559 } (by decide) (by decide)⟩

/-- Storing one sent packet never leaves more than the configured maximum. -/
theorem retransmit_buffer_store_le (maxQueue : Nat) (buf : List JanusRtpPacket)
    (p : JanusRtpPacket) :
    (retransmit_buffer_store maxQueue buf p).length ≤ maxQueue := by
  unfold retransmit_buffer_store
  simp only [List.length_drop, List.length_append, List.length_cons,
    List.length_nil]
  omega

/-- One component operation preserves the retransmit-buffer bound. -/
theorem retransmit_buffer_apply_le (maxQueue : Nat) (buf : List JanusRtpPacket)
    (op : IceComponentOp) (hle : buf.length ≤ maxQueue) :
    (retransmit_buffer_apply maxQueue buf op).length ≤ maxQueue := by
  cases op with
  | send_rtp p => exact retransmit_buffer_store_le maxQueue buf p
  | incoming_nack pid blp => exact hle

/-- Folding component operations preserves the retransmit-buffer bound. -/
theorem retransmit_buffer_fold_le (maxQueue : Nat) :
    ∀ (ops : List IceComponentOp) (buf : List JanusRtpPacket),
      buf.length ≤ maxQueue →
      (ops.foldl (retransmit_buffer_apply maxQueue) buf).length ≤ maxQueue := by
  intro ops
  induction ops with
  | nil =>
    intro buf h
    simpa using h
  | cons op rest ih =>
    intro buf h
    simp only [List.foldl_cons]
    exact ih _ (retransmit_buffer_apply_le maxQueue buf op h)

/-- C6: for every configured maximum and every sequence of sent packets and
incoming NACKs, the retransmit buffer (audio_retransmit_buffer /
video_retransmit_buffer) never holds more packets than the configured
maximum NACK queue value, whose default is 300 packets per handle per
direction. -/
theorem C6_retransmit_buffer_bound :
    (∀ (maxQueue : Nat) (ops : List IceComponentOp),
      (retransmit_buffer_run maxQueue ops).length ≤ maxQueue) ∧
    DEFAULT_MAX_NACK_QUEUE = 300 := by
  constructor
  · intro maxQueue ops
    exact retransmit_buffer_fold_le maxQueue ops [] (by simp)
  · rfl

/-- An insertion never leaves the window above its capacity. -/
theorem seq_window_insert_le (w : List JanusSeqInfo) (s : Nat) (now : Int) :
    (seq_window_insert w s now).length ≤ LAST_SEQS_MAX_LEN := by
  unfold seq_window_insert seq_window_trim
  simp only [List.length_drop]
  omega

/-- The timer pass does not change the number of slots. -/
theorem seq_window_tick_length (w : List JanusSeqInfo) (now rtt : Int) :
    ((seq_window_tick w now rtt).1).length = w.length := by
  unfold seq_window_tick
  simp

/-- One window operation keeps the window within its capacity. -/
theorem seq_window_apply_le (w : List JanusSeqInfo) (op : SeqWindowOp)
    (hle : w.length ≤ LAST_SEQS_MAX_LEN) :
    (seq_window_apply w op).length ≤ LAST_SEQS_MAX_LEN := by
  cases op with
  | ins s now => exact seq_window_insert_le w s now
  | tick now rtt =>
    unfold seq_window_apply
    rw [seq_window_tick_length]
    exact hle

/-- Folding window operations keeps the window within its capacity. -/
theorem seq_window_fold_le :
    ∀ (ops : List SeqWindowOp) (w : List JanusSeqInfo),
      w.length ≤ LAST_SEQS_MAX_LEN →
      (ops.foldl seq_window_apply w).length ≤ LAST_SEQS_MAX_LEN := by
  intro ops
  induction ops with
  | nil =>
    intro w h
    simpa using h
  | cons op rest ih =>
    intro w h
    simp only [List.foldl_cons]
    exact ih _ (seq_window_apply_le w op h)

/-- On insertion with a forward gap, every intermediate sequence number
enters the window as MISSING. -/
theorem seq_window_insert_core_missing (w : List JanusSeqInfo) (s : Nat) (now : Int)
    (hne : w.isEmpty = false)
    (hgap1 : 1 ≤ seq_window_gap w s) (hgap2 : seq_window_gap w s < 32768) :
    ∀ i < seq_window_gap w s - 1,
      ({ ts := now, seq := (seq_window_last_seq w + 1 + i) % seqMod,
         state := janus_seq_state.SEQ_MISSING } : JanusSeqInfo) ∈
        seq_window_insert_core w s now := by
  intro i hi
  unfold seq_window_insert_core
  rw [if_neg (by simp [hne]), if_pos ⟨hgap1, hgap2⟩]
  exact List.mem_append_left _ (List.mem_append_right _
    (List.mem_map.mpr ⟨i, List.mem_range.mpr hi, rfl⟩))

/-- A MISSING slot older than the RTT estimate is promoted to NACKED by the
timer pass and its sequence number is emitted in a NACK. -/
theorem seq_window_tick_missing_promotes (w : List JanusSeqInfo) (now rtt : Int)
    (cell : JanusSeqInfo) (hc : cell ∈ w)
    (hm : cell.state = janus_seq_state.SEQ_MISSING) (hold : now - cell.ts ≥ rtt) :
    ({ cell with state := janus_seq_state.SEQ_NACKED, ts := now } : JanusSeqInfo) ∈
      (seq_window_tick w now rtt).1 ∧
    cell.seq ∈ (seq_window_tick w now rtt).2 := by
  constructor
  · refine List.mem_map.mpr ⟨cell, hc, ?_⟩
    rw [if_pos ⟨hm, hold⟩]
  · refine List.mem_filterMap.mpr ⟨cell, hc, ?_⟩
    rw [if_pos ⟨hm, hold⟩]

/-- A NACKED slot older than the give-up maximum becomes GIVEUP. -/
theorem seq_window_tick_nacked_giveup (w : List JanusSeqInfo) (now rtt : Int)
    (cell : JanusSeqInfo) (hc : cell ∈ w)
    (hn : cell.state = janus_seq_state.SEQ_NACKED)
    (hold : now - cell.ts ≥ seq_nacked_giveup_us) :
    ({ cell with state := janus_seq_state.SEQ_GIVEUP } : JanusSeqInfo) ∈
      (seq_window_tick w now rtt).1 := by
  refine List.mem_map.mpr ⟨cell, hc, ?_⟩
  rw [if_neg (by simp [hn]), if_pos ⟨hn, hold⟩]

/-- A RECVED slot is left untouched by the timer pass. -/
theorem seq_window_tick_recved_terminal (w : List JanusSeqInfo) (now rtt : Int)
    (cell : JanusSeqInfo) (hc : cell ∈ w)
    (hr : cell.state = janus_seq_state.SEQ_RECVED) :
    cell ∈ (seq_window_tick w now rtt).1 := by
  refine List.mem_map.mpr ⟨cell, hc, ?_⟩
  rw [if_neg (by simp [hr]), if_neg (by simp [hr])]

/-- A RECVED slot survives an insertion unchanged (before recycling). -/
theorem seq_window_insert_core_recved_terminal (w : List JanusSeqInfo)
    (s : Nat) (now : Int) (cell : JanusSeqInfo) (hc : cell ∈ w)
    (hr : cell.state = janus_seq_state.SEQ_RECVED) :
    cell ∈ seq_window_insert_core w s now := by
  have hne : w.isEmpty = false := by
    cases w with
    | nil => exact absurd hc (List.not_mem_nil cell)
    | cons a t => rfl
  unfold seq_window_insert_core
  rw [if_neg (by simp [hne])]
  by_cases hgap : 1 ≤ seq_window_gap w s ∧ seq_window_gap w s < 32768
  · rw [if_pos hgap]
    exact List.mem_append_left _ (List.mem_append_left _ hc)
  · rw [if_neg hgap]
    refine List.mem_map.mpr ⟨cell, hc, ?_⟩
    rw [if_neg (by simp [hr])]

/-- C7: the inbound NACK-generation window holds at most the last
LAST_SEQS_MAX_LEN = 160 received sequence numbers per media lane; every slot
carries exactly one of MISSING, NACKED, GIVEUP, RECVED; on insertion of seq
s after last-seen L the intermediate slots L+1 .. s-1 enter MISSING; a
MISSING slot is promoted to NACKED one RTT estimate later (emitting a NACK);
a NACKED slot becomes GIVEUP after the default 1 second with no retransmit;
RECVED is terminal under both the timer and insertions; and slots recycle in
FIFO order (the oldest, at the list head, are dropped). -/
theorem C7_nack_window :
    (∀ ops : List SeqWindowOp,
      (seq_window_run ops).length ≤ LAST_SEQS_MAX_LEN) ∧
    LAST_SEQS_MAX_LEN = 160 ∧
    (∀ cell : JanusSeqInfo,
      cell.state = janus_seq_state.SEQ_MISSING ∨
      cell.state = janus_seq_state.SEQ_NACKED ∨
      cell.state = janus_seq_state.SEQ_GIVEUP ∨
      cell.state = janus_seq_state.SEQ_RECVED) ∧
    (∀ (w : List JanusSeqInfo) (s : Nat) (now : Int),
      w.isEmpty = false → 1 ≤ seq_window_gap w s → seq_window_gap w s < 32768 →
      ∀ i < seq_window_gap w s - 1,
        ({ ts := now, seq := (seq_window_last_seq w + 1 + i) % seqMod,
           state := janus_seq_state.SEQ_MISSING } : JanusSeqInfo) ∈
          seq_window_insert_core w s now) ∧
    (∀ (w : List JanusSeqInfo) (now rtt : Int) (cell : JanusSeqInfo),
      cell ∈ w → cell.state = janus_seq_state.SEQ_MISSING → now - cell.ts ≥ rtt →
      ({ cell with state := janus_seq_state.SEQ_NACKED, ts := now } : JanusSeqInfo) ∈
        (seq_window_tick w now rtt).1 ∧
      cell.seq ∈ (seq_window_tick w now rtt).2) ∧
    ((∀ (w : List JanusSeqInfo) (now rtt : Int) (cell : JanusSeqInfo),
      cell ∈ w → cell.state = janus_seq_state.SEQ_NACKED →
      now - cell.ts ≥ seq_nacked_giveup_us →
      ({ cell with state := janus_seq_state.SEQ_GIVEUP } : JanusSeqInfo) ∈
        (seq_window_tick w now rtt).1) ∧
     seq_nacked_giveup_us = 1000000) ∧
    (∀ (w : List JanusSeqInfo) (now rtt : Int) (s : Nat) (cell : JanusSeqInfo),
      cell ∈ w → cell.state = janus_seq_state.SEQ_RECVED →
      cell ∈ (seq_window_tick w now rtt).1 ∧
      cell ∈ seq_window_insert_core w s now) ∧
    (∀ (w : List JanusSeqInfo) (s : Nat) (now : Int),
      seq_window_insert w s now =
        (seq_window_insert_core w s now).drop
          ((seq_window_insert_core w s now).length - LAST_SEQS_MAX_LEN)) := by
  refine ⟨?_, rfl, ?_, ?_, ?_, ⟨?_, rfl⟩, ?_, ?_⟩
  · intro ops
    exact seq_window_fold_le ops [] (by simp)
  · intro cell
    cases h : cell.state
    · exact Or.inl rfl
    · exact Or.inr (Or.inl rfl)
    · exact Or.inr (Or.inr (Or.inl rfl))
    · exact Or.inr (Or.inr (Or.inr rfl))
  · intro w s now hne h1 h2
    exact seq_window_insert_core_missing w s now hne h1 h2
  · intro w now rtt cell hc hm hold
    exact seq_window_tick_missing_promotes w now rtt cell hc hm hold
  · intro w now rtt cell hc hn hold
    exact seq_window_tick_nacked_giveup w now rtt cell hc hn hold
  · intro w now rtt s cell hc hr
    exact ⟨seq_window_tick_recved_terminal w now rtt cell hc hr,
      seq_window_insert_core_recved_terminal w s now cell hc hr⟩
  · intro w s now
    rfl

/-- C7 witness: the theorem's conditional parts applied to concrete windows:
a gap insertion creating MISSING 11, a MISSING slot promoted to NACKED, a
NACKED slot given up after a second, and a RECVED slot surviving both a
timer pass and an insertion. -/
theorem C7_nack_window_witness :
    (([({ ts := 0, seq := 10, state := janus_seq_state.SEQ_RECVED } : JanusSeqInfo)]).isEmpty = false ∧
      1 ≤ seq_window_gap [{ ts := 0, seq := 10, state := janus_seq_state.SEQ_RECVED }] 13 ∧
      seq_window_gap [{ ts := 0, seq := 10, state := janus_seq_state.SEQ_RECVED }] 13 < 32768 ∧
      0 < seq_window_gap [{ ts := 0, seq := 10, state := janus_seq_state.SEQ_RECVED }] 13 - 1 ∧
      ({ ts := 0, seq := 11, state := janus_seq_state.SEQ_MISSING } : JanusSeqInfo) ∈
        [({ ts := 0, seq := 11, state := janus_seq_state.SEQ_MISSING } : JanusSeqInfo)] ∧
      (5 : Int) - 0 ≥ 2 ∧
      ({ ts := 0, seq := 12, state := janus_seq_state.SEQ_NACKED } : JanusSeqInfo) ∈
        [({ ts := 0, seq := 12, state := janus_seq_state.SEQ_NACKED } : JanusSeqInfo)] ∧
      (1000001 : Int) - 0 ≥ seq_nacked_giveup_us) ∧
    ({ ts := (7:Int), seq := (10 + 1 + 0) % seqMod,
       state := janus_seq_state.SEQ_MISSING } : JanusSeqInfo) ∈
      seq_window_insert_core [{ ts := 0, seq := 10, state := janus_seq_state.SEQ_RECVED }] 13 7 ∧
    (({ ts := (5:Int), seq := 11, state := janus_seq_state.SEQ_NACKED } : JanusSeqInfo) ∈
      (seq_window_tick [{ ts := 0, seq := 11, state := janus_seq_state.SEQ_MISSING }] 5 2).1 ∧
     (11 : Nat) ∈
      (seq_window_tick [{ ts := 0, seq := 11, state := janus_seq_state.SEQ_MISSING }] 5 2).2) ∧
    ({ ts := (0:Int), seq := 12, state := janus_seq_state.SEQ_GIVEUP } : JanusSeqInfo) ∈
      (seq_window_tick [{ ts := 0, seq := 12, state := janus_seq_state.SEQ_NACKED }] 1000001 2).1 ∧
    (({ ts := (0:Int), seq := 10, state := janus_seq_state.SEQ_RECVED } : JanusSeqInfo) ∈
      (seq_window_tick [{ ts := 0, seq := 10, state := janus_seq_state.SEQ_RECVED }] 5 2).1 ∧
     ({ ts := (0:Int), seq := 10, state := janus_seq_state.SEQ_RECVED } : JanusSeqInfo) ∈
      seq_window_insert_core [{ ts := 0, seq := 10, state := janus_seq_state.SEQ_RECVED }] 13 5) :=
  ⟨⟨by decide, by decide, by decide, by decide, by decide, by decide, by decide, by decide⟩,
    C7_nack_window.2.2.2.1 [{ ts := 0, seq := 10, state := janus_seq_state.SEQ_RECVED }] 13 7
      (by decide) (by decide) (by decide) 0 (by decide),
    C7_nack_window.2.2.2.2.1 [{ ts := 0, seq := 11, state := janus_seq_state.SEQ_MISSING }] 5 2
      { ts := 0, seq := 11, state := janus_seq_state.SEQ_MISSING }
      (by decide) (by decide) (by decide),
    C7_nack_window.2.2.2.2.2.1.1 [{ ts := 0, seq := 12, state := janus_seq_state.SEQ_NACKED }]
      1000001 2 { ts := 0, seq := 12, state := janus_seq_state.SEQ_NACKED }
      (by decide) (by decide) (by decide),
    C7_nack_window.2.2.2.2.2.2.1 [{ ts := 0, seq := 10, state := janus_seq_state.SEQ_RECVED }]
      5 2 13 { ts := 0, seq := 10, state := janus_seq_state.SEQ_RECVED }
      (by decide) (by decide)⟩

/-- C8: for every handle state and every configured no-media timer value,
expiry of the no-media timer produces a notification event but never
initiates a hangup: the handle's hungup flag is untouched and no hangup
event is ever emitted by the check. -/
theorem C8_no_media_timer :
    ∀ (noMediaTimer : Nat) (now lastMedia : Int) (st : JanusIceMediaState)
      (video : Bool),
      (janus_ice_no_media_check noMediaTimer now lastMedia st video).1.hungup =
        st.hungup ∧
      JanusIceEvent.hangup_notification ∉
        (janus_ice_no_media_check noMediaTimer now lastMedia st video).2 ∧
      (noMediaTimer ≠ 0 → st.notified_lastsec = false →
        now - lastMedia ≥ (noMediaTimer : Int) * 1000000 →
        JanusIceEvent.media_notification video false ∈
          (janus_ice_no_media_check noMediaTimer now lastMedia st video).2) := by
  intro t now last st video
  unfold janus_ice_no_media_check
  by_cases hcond : t ≠ 0 ∧ st.notified_lastsec = false ∧
      now - last ≥ (t : Int) * 1000000
  · rw [if_pos hcond]
    exact ⟨rfl, by simp, fun _ _ _ => by simp⟩
  · rw [if_neg hcond]
    exact ⟨rfl, by simp, fun h1 h2 h3 => absurd ⟨h1, h2, h3⟩ hcond⟩

/-- C8 witness: the theorem applied to a one-second timer that has expired:
the notification fires, nothing is hung up. -/
theorem C8_no_media_timer_witness :
    ((1:Nat) ≠ 0 ∧
      ({ hungup := false, notified_lastsec := false } : JanusIceMediaState).notified_lastsec = false ∧
      (2000000 : Int) - 0 ≥ ((1:Nat) : Int) * 1000000) ∧
    (janus_ice_no_media_check 1 2000000 0
        { hungup := false, notified_lastsec := false } true).1.hungup = false ∧
    JanusIceEvent.hangup_notification ∉
      (janus_ice_no_media_check 1 2000000 0
        { hungup := false, notified_lastsec := false } true).2 ∧
    JanusIceEvent.media_notification true false ∈
      (janus_ice_no_media_check 1 2000000 0
        { hungup := false, notified_lastsec := false } true).2 :=
  ⟨⟨by decide, rfl, by decide⟩,
    (C8_no_media_timer 1 2000000 0 { hungup := false, notified_lastsec := false } true).1,
    (C8_no_media_timer 1 2000000 0 { hungup := false, notified_lastsec := false } true).2.1,
    (C8_no_media_timer 1 2000000 0 { hungup := false, notified_lastsec := false } true).2.2
      (by decide) rfl (by decide)⟩

/-- C9 (amended): the plugin callbacks incoming_rtp, incoming_rtcp,
incoming_data and slow_link are optional — a missing one resolves to a
no-op — while every other method of the plugin.h interface list (init,
destroy, get_api_compatibility, get_version, get_version_string,
get_description, get_name, get_package, create_session, handle_message,
setup_media, hangup_media, destroy_session, query_session) is mandatory:
the core accepts a plugin exactly when all of those are implemented.
Contrary to the claim, setup_media and hangup_media are mandatory
(plugin.h lines 270-281). -/
theorem C9_plugin_callbacks_amended :
    (∀ p : JanusPluginTable,
      janus_plugin_is_valid p = true ↔
        (p.init.isSome = true ∧ p.destroy.isSome = true ∧
         p.get_api_compatibility.isSome = true ∧ p.get_version.isSome = true ∧
         p.get_version_string.isSome = true ∧ p.get_description.isSome = true ∧
         p.get_name.isSome = true ∧ p.get_package.isSome = true ∧
         p.create_session.isSome = true ∧ p.handle_message.isSome = true ∧
         p.setup_media.isSome = true ∧ p.hangup_media.isSome = true ∧
         p.destroy_session.isSome = true ∧ p.query_session.isSome = true)) ∧
    (∀ (p : JanusPluginTable) (x : Nat),
      (p.incoming_rtp = none → janus_plugin_dispatch_incoming_rtp p x = []) ∧
      (p.incoming_rtcp = none → janus_plugin_dispatch_incoming_rtcp p x = []) ∧
      (p.incoming_data = none → janus_plugin_dispatch_incoming_data p x = []) ∧
      (p.slow_link = none → janus_plugin_dispatch_slow_link p x = [])) := by
  constructor
  · intro p
    unfold janus_plugin_is_valid
    simp [Bool.and_eq_true, and_assoc]
  · intro p x
    refine ⟨?_, ?_, ?_, ?_⟩
    · intro h
      simp [janus_plugin_dispatch_incoming_rtp, h]
    · intro h
      simp [janus_plugin_dispatch_incoming_rtcp, h]
    · intro h
      simp [janus_plugin_dispatch_incoming_data, h]
    · intro h
      simp [janus_plugin_dispatch_slow_link, h]

/-- C9 counterexample: a plugin implementing every method the claim calls
mandatory, and all four media callbacks, and hangup_media, but omitting
setup_media — which the claim calls optional — is rejected by the core's
validity check. -/
theorem C9_claim_counterexample :
    claim_mandatory_present C9_no_setup_media_plugin = true ∧
    C9_no_setup_media_plugin.setup_media = none ∧
    janus_plugin_is_valid C9_no_setup_media_plugin = false :=
  ⟨rfl, rfl, rfl⟩

/-- C9 witness: a plugin omitting exactly the four optional callbacks is
accepted, and each missing optional dispatch is a no-op. -/
theorem C9_plugin_callbacks_witness :
    (C9_optional_omitted_plugin.incoming_rtp = none ∧
     C9_optional_omitted_plugin.incoming_rtcp = none ∧
     C9_optional_omitted_plugin.incoming_data = none ∧
     C9_optional_omitted_plugin.slow_link = none) ∧
    janus_plugin_is_valid C9_optional_omitted_plugin = true ∧
    (janus_plugin_dispatch_incoming_rtp C9_optional_omitted_plugin 3 = [] ∧
     janus_plugin_dispatch_incoming_rtcp C9_optional_omitted_plugin 3 = [] ∧
     janus_plugin_dispatch_incoming_data C9_optional_omitted_plugin 3 = [] ∧
     janus_plugin_dispatch_slow_link C9_optional_omitted_plugin 3 = []) :=
  ⟨⟨rfl, rfl, rfl, rfl⟩,
    (C9_plugin_callbacks_amended.1 C9_optional_omitted_plugin).mpr (by decide),
    (C9_plugin_callbacks_amended.2 C9_optional_omitted_plugin 3).1 rfl,
    (C9_plugin_callbacks_amended.2 C9_optional_omitted_plugin 3).2.1 rfl,
    (C9_plugin_callbacks_amended.2 C9_optional_omitted_plugin 3).2.2.1 rfl,
    (C9_plugin_callbacks_amended.2 C9_optional_omitted_plugin 3).2.2.2 rfl⟩

/-- Overwriting the value of an item that exists keeps it findable with the
new value. -/
theorem janus_config_find_update_of_found (n v : String) :
    ∀ items : List janus_config_item,
      (items.find? fun i => i.name == n).isSome = true →
      ((items.map fun i => if i.name == n then { i with value := v } else i).find?
        (fun i => i.name == n)).map (fun i => i.value) = some v := by
  intro items
  induction items with
  | nil =>
    intro hex
    simp at hex
  | cons a t ih =>
    intro hex
    by_cases ha : (a.name == n) = true
    · simp only [List.map_cons, if_pos ha]
      rw [List.find?_cons]
      simp [ha]
    · simp only [List.map_cons, if_neg ha]
      rw [List.find?_cons]
      simp only [ha]
      apply ih
      rw [List.find?_cons] at hex
      simpa [ha] using hex

/-- A freshly appended item is findable with its value. -/
theorem janus_config_find_append_new (n v : String) (items : List janus_config_item)
    (hnone : (items.find? fun i => i.name == n) = none) :
    ((items ++ [({ name := n, value := v } : janus_config_item)]).find?
      (fun i => i.name == n)).map (fun i => i.value) = some v := by
  rw [List.find?_append, hnone]
  simp [List.find?_cons]

/-- After janus_config_update_items, the item is findable with the new
value, whether it existed before or not. -/
theorem janus_config_update_items_value (items : List janus_config_item)
    (n v : String) :
    ((janus_config_update_items items n v).find? fun i => i.name == n).map
      (fun i => i.value) = some v := by
  unfold janus_config_update_items
  by_cases hex : (items.find? fun i => i.name == n).isSome = true
  · rw [if_pos hex]
    exact janus_config_find_update_of_found n v items hex
  · rw [if_neg hex]
    have hnone : (items.find? fun i => i.name == n) = none := by
      cases hfind : items.find? fun i => i.name == n with
      | none => rfl
      | some c => exact absurd (by rw [hfind]; rfl) hex
    exact janus_config_find_append_new n v items hnone

/-- Overwriting an existing item does not change the number of items. -/
theorem janus_config_update_items_length (items : List janus_config_item)
    (n v : String) (hex : (items.find? fun i => i.name == n).isSome = true) :
    (janus_config_update_items items n v).length = items.length := by
  unfold janus_config_update_items
  rw [if_pos hex]
  exact List.length_map items _

/-- After janus_config_add_category, a category with the requested name is
findable. -/
theorem janus_config_add_category_find (config : janus_config) (cat : String) :
    ∃ c0, (janus_config_add_category config cat).categories.find?
      (fun c => c.name == cat) = some c0 := by
  unfold janus_config_add_category
  by_cases hex : (config.categories.find? fun c => c.name == cat).isSome = true
  · rw [if_pos hex]
    obtain ⟨c0, hc0⟩ := Option.isSome_iff_exists.mp hex
    exact ⟨c0, hc0⟩
  · rw [if_neg hex]
    refine ⟨{ name := cat, items := [] }, ?_⟩
    have hnone : (config.categories.find? fun c => c.name == cat) = none := by
      cases hfind : config.categories.find? fun c => c.name == cat with
      | none => rfl
      | some c => exact absurd (by rw [hfind]; rfl) hex
    dsimp only
    rw [List.find?_append, hnone]
    simp [List.find?_cons]

/-- After janus_config_add_item, looking the item up through its category
yields the new value, whether or not the category or the item existed. -/
theorem janus_config_add_item_value (config : janus_config) (cat n v : String) :
    ((janus_config_get_item_drilldown (janus_config_add_item config cat n v) cat n).map
      fun i => i.value) = some v := by
  obtain ⟨c0, hc0⟩ := janus_config_add_category_find config cat
  have hc0name' := List.find?_some hc0
  have hc0name : (c0.name == cat) = true := hc0name'
  unfold janus_config_add_item janus_config_get_item_drilldown
    janus_config_get_category janus_config_get_item
  dsimp only
  rw [List.find?_map]
  have hpf : ((fun c : janus_config_category => c.name == cat) ∘ (fun c =>
      if c.name == cat then
        { c with items := janus_config_update_items c.items n v }
      else c)) = (fun c : janus_config_category => c.name == cat) := by
    funext c
    by_cases h : (c.name == cat) = true
    · simp [Function.comp, h]
    · simp [Function.comp, h]
  rw [hpf, hc0]
  simp only [Option.map_some', if_pos hc0name]
  exact janus_config_update_items_value c0.items n v

/-- janus_config_add_category on an existing category leaves the container
unchanged. -/
theorem janus_config_add_category_existing (config : janus_config) (cat : String)
    (hex : (config.categories.find? fun c => c.name == cat).isSome = true) :
    janus_config_add_category config cat = config := by
  unfold janus_config_add_category
  rw [if_pos hex]

/-- C10: janus_config_add_item called with the name of an item that already
exists in a category overwrites that item's value, without duplicating the
item, and creates the category when it does not exist (after add_item the
drilldown lookup always yields the new value); janus_config_add_category
called with the name of an existing category does not overwrite it and
returns the container unchanged. -/
theorem C10_config_add :
    (∀ (config : janus_config) (cat n v : String),
      ((janus_config_get_item_drilldown (janus_config_add_item config cat n v) cat n).map
        fun i => i.value) = some v) ∧
    (∀ (items : List janus_config_item) (n v : String),
      (items.find? fun i => i.name == n).isSome = true →
      (janus_config_update_items items n v).length = items.length) ∧
    (∀ (config : janus_config) (cat : String),
      (config.categories.find? fun c => c.name == cat).isSome = true →
      janus_config_add_category config cat = config) := by
  refine ⟨?_, ?_, ?_⟩
  · intro config cat n v
    exact janus_config_add_item_value config cat n v
  · intro items n v hex
    exact janus_config_update_items_length items n v hex
  · intro config cat hex
    exact janus_config_add_category_existing config cat hex

/-- C10 witness: the theorem applied to a concrete configuration holding
category "general" with item debug=4: add_item overwrites to 5 without
duplication, and add_category on "general" is the identity. -/
theorem C10_config_add_witness :
    ((C10_general_cat.items.find? (fun i => i.name == "debug")).isSome = true ∧
      (C10_cfg.categories.find? (fun c => c.name == "general")).isSome = true) ∧
    ((janus_config_get_item_drilldown
        (janus_config_add_item C10_cfg "general" "debug" "5")
        "general" "debug").map fun i => i.value) = some "5" ∧
    (janus_config_update_items C10_general_cat.items "debug" "5").length =
      C10_general_cat.items.length ∧
    janus_config_add_category C10_cfg "general" = C10_cfg :=
  ⟨⟨by decide, by decide⟩,
    C10_config_add.1 C10_cfg "general" "debug" "5",
    C10_config_add.2.1 C10_general_cat.items "debug" "5" (by decide),
    C10_config_add.2.2 C10_cfg "general" (by decide)⟩
